import Mathlib

/-!
Shallow embedding of the node-DeepResearch agent core:
* `src/src/agent.ts` — the control loop `getResponse`, its per-iteration
  bookkeeping (gap rotation, evaluation metrics, permission cooldowns),
  the per-query search execution `executeSearchQueries`, and forced
  ("beast") mode;
* `src/src/utils/safe-generator.ts` — the schema generator
  `Schemas.getAgentSchema` and the multi-tier fallback logic of
  `ObjectGeneratorSafe.generateObject`.

External collaborators (the model-call layer, search providers, the URL
ranker from `utils/url-tools`, the dedup/rewrite/evaluate tools) are not part
of the two source files; their outputs are supplied by explicit oracle
records so that the control flow of the source is modelled exactly while the
collaborators stay abstract.  Token counts are modelled as exact rationals
(the source uses JS numbers; the threshold `tokenBudget * 0.85` is taken at
its exact mathematical value).  The loop is modelled for the single-agent
configuration `teamSize = 1`, the default of `getResponse`.
-/

namespace JinaAgent

/-- Maximum URLs to visit in one step (schemas source, line 377). -/
def MAX_URLS_PER_STEP : Nat := 5

/-- Maximum search queries in one step (schemas source, line 378). -/
def MAX_QUERIES_PER_STEP : Nat := 5

/-- Maximum reflection questions in one step (schemas source, line 379). -/
def MAX_REFLECT_PER_STEP : Nat := 2

/-! ## Action schema generator (`Schemas.getAgentSchema`) -/

/-- Structural model of the `search` action sub-schema: an array of query
strings, each between 1 and 30 characters, at most `MAX_QUERIES_PER_STEP`
entries, attached as an optional field. -/
structure SearchSub where
  maxQueries : Nat
  queryMinLen : Nat
  queryMaxLen : Nat
  isOptional : Bool
  deriving DecidableEq, Repr

/-- Structural model of the `coding` action sub-schema: a single issue
string of at most 500 characters. -/
structure CodingSub where
  issueMaxLen : Nat
  isOptional : Bool
  deriving DecidableEq, Repr

/-- Structural model of the `answer` action sub-schema (free-form answer
string, no length cap in the source). -/
structure AnswerSub where
  isOptional : Bool
  deriving DecidableEq, Repr

/-- Structural model of the `reflect` action sub-schema: at most
`MAX_REFLECT_PER_STEP` question strings. -/
structure ReflectSub where
  maxQuestions : Nat
  isOptional : Bool
  deriving DecidableEq, Repr

/-- Structural model of the `visit` action sub-schema: at most
`MAX_URLS_PER_STEP` URL indices. -/
structure VisitSub where
  maxTargets : Nat
  isOptional : Bool
  deriving DecidableEq, Repr

/-- Structural model of the agent schema returned by
`Schemas.getAgentSchema`: the bounded `think` field, the `action` enum
(the keys of `actionSchemas` in insertion order), and one optional
sub-schema per permitted action. -/
structure AgentSchemaModel where
  thinkMaxLen : Nat
  actionEnum : List String
  searchSub : Option SearchSub
  codingSub : Option CodingSub
  answerSub : Option AnswerSub
  reflectSub : Option ReflectSub
  visitSub : Option VisitSub
  deriving DecidableEq, Repr

/-- Model of `Schemas.getAgentSchema` (safe-generator source, lines
741-833).  Sub-schemas are added in source order — search, coding, answer,
reflect, visit — each `.optional()`, and the `action` enum is built from
`Object.keys(actionSchemas)`, i.e. the permitted keys in that insertion
order. -/
def getAgentSchema (allowReflect allowRead allowAnswer allowSearch allowCoding : Bool) :
    AgentSchemaModel :=
  let keys : List String :=
    (if allowSearch then ["search"] else []) ++
    (if allowCoding then ["coding"] else []) ++
    (if allowAnswer then ["answer"] else []) ++
    (if allowReflect then ["reflect"] else []) ++
    (if allowRead then ["visit"] else [])
  { thinkMaxLen := 500
    actionEnum := keys
    searchSub := if allowSearch then
        some { maxQueries := MAX_QUERIES_PER_STEP, queryMinLen := 1, queryMaxLen := 30,
               isOptional := true } else none
    codingSub := if allowCoding then some { issueMaxLen := 500, isOptional := true } else none
    answerSub := if allowAnswer then some { isOptional := true } else none
    reflectSub := if allowReflect then
        some { maxQuestions := MAX_REFLECT_PER_STEP, isOptional := true } else none
    visitSub := if allowRead then
        some { maxTargets := MAX_URLS_PER_STEP, isOptional := true } else none }

/-- The `action` enum of the generated agent schema, as a function of the
five permission flags. -/
def agentActionKeys (allowReflect allowRead allowAnswer allowSearch allowCoding : Bool) :
    List String :=
  (getAgentSchema allowReflect allowRead allowAnswer allowSearch allowCoding).actionEnum

/-! ## Agent control loop: data model -/

/-- Evaluation check types (`EvaluationType` in the repository's types). -/
inductive EvalType where
  | definitive | freshness | plurality | completeness | attribution | strict
  deriving DecidableEq, Repr, Inhabited

/-- One entry of a question's evaluation-metric list
(`RepeatEvaluationType`): a check type with its remaining attempt budget
`numEvalsRequired`. -/
structure EvalEntry where
  etype : EvalType
  numEvalsRequired : Int
  deriving DecidableEq, Repr, Inhabited

/-- The five action kinds of the step/action union. -/
inductive ActionKind where
  | search | visit | answer | reflect | coding
  deriving DecidableEq, Repr, Inhabited

/-- The parsed generation result (`thisStep`), with the payload fields the
control flow branches on.  `none` payloads model JS `undefined`
(`searchRequests` / `questionsToAnswer` absent). -/
inductive AgentAction where
  | answer (text : String)
  | reflect (questionsToAnswer : Option (List String))
  | search (searchRequests : Option (List String))
  | visit (urlTargets : List Nat)
  | coding (codingIssue : String)
  deriving DecidableEq, Repr, Inhabited

/-- The discriminator tag of an action. -/
def AgentAction.kind : AgentAction → ActionKind
  | .answer _ => .answer
  | .reflect _ => .reflect
  | .search _ => .search
  | .visit _ => .visit
  | .coding _ => .coding

/-- Knowledge item types (`KnowledgeItem.type`). -/
inductive KnowledgeType where
  | url | sideInfo | qa | coding
  deriving DecidableEq, Repr, Inhabited

/-- A knowledge item as used by the loop (references/source code omitted —
no modelled claim touches them). -/
structure Knowledge where
  question : String
  answer : String
  ktype : KnowledgeType
  updated : Option String := none
  deriving DecidableEq, Repr, Inhabited

/-- The part of `thisStep` the loop exit logic reads: the action tag, the
answer text and the `isFinal` marker (absent = `false`). -/
structure StepResult where
  kind : ActionKind
  answerText : String
  isFinal : Bool
  deriving DecidableEq, Repr, Inhabited

/-- Why the main loop stopped.  `fatal` models the
`'Unauthorized Jina API key'` exception propagating out of a search step
(it aborts `getResponse`; no beast mode runs).  `oracleExhausted` is the
model artifact of running out of scripted step outcomes. -/
inductive ExitReason where
  | trivialAnswer | mainPass | metricExhausted | budget | oracleExhausted
  | fatal (msg : String)
  deriving DecidableEq, Repr, Inhabited

/-- Whether an exit reason is the fatal (exception) one. -/
def ExitReason.isFatal : ExitReason → Bool
  | .fatal _ => true
  | _ => false

/-- Regular loop step versus the single forced/beast-mode step. -/
inductive StepKind where
  | regular | beast
  deriving DecidableEq, Repr, Inhabited

/-- Observation record for one started step: the usage at the loop guard,
the five permission flags the step's schema was generated from, the gaps
length read by the reflect gate, and which effects ran. -/
structure IterLog where
  kind : StepKind
  startUsage : Nat
  totalStep : Nat
  gapsLenAtSchema : Nat
  schemaReflect : Bool
  schemaRead : Bool
  schemaAnswer : Bool
  schemaSearch : Bool
  schemaCoding : Bool
  actionKind : ActionKind
  ranEvaluation : Bool
  executedSearch : Bool
  executedVisit : Bool
  deriving DecidableEq, Repr, Inhabited

/-- The mutable session state of `getResponse` that the modelled claims
observe. -/
structure AgentState where
  step : Nat
  totalStep : Nat
  gaps : List String
  allQuestions : List String
  allKnowledge : List Knowledge
  evaluationMetrics : List (String × List EvalEntry)
  finalAnswerPIP : List String
  diaryLen : Nat
  allowAnswer : Bool
  allowSearch : Bool
  allowRead : Bool
  allowReflect : Bool
  allowCoding : Bool
  usage : Nat
  thisStep : StepResult
  trivialQuestion : Bool
  deriving DecidableEq, Repr, Inhabited

/-- Scripted outcomes of the external collaborators for one loop
iteration: the generated action, `evaluateQuestion`/`evaluateAnswer`
results, dedup outputs, URL-ranking sizes and the tokens consumed. -/
structure StepOracle where
  cost : Nat := 0
  action : AgentAction
  questionEvalTypes : List EvalType := []
  weightedLen : Nat := 0
  urlListLen : Nat := 0
  evalPass : Bool := true
  evalType : EvalType := .definitive
  evalThink : String := ""
  evalImprovement : Option String := none
  errorRecap : String := ""
  errorBlame : String := ""
  errorImprovement : String := ""
  reflectDeduped : List String := []
  searchAbort : Bool := false
  searchKnowledge : List Knowledge := []
  visitKnowledge : List Knowledge := []
  codingSuccess : Bool := true
  codingOutput : String := ""
  nowString : String := ""
  deriving DecidableEq, Repr, Inhabited

/-- The `getResponse` parameters the modelled claims depend on
(`teamSize` is fixed to its default 1). -/
structure SessionParams where
  question : String
  tokenBudget : Nat := 1000000
  maxBadAttempts : Int := 2
  noDirectAnswer : Bool := false
  deriving DecidableEq, Repr, Inhabited

/-! ## Agent control loop: helper functions from the source -/

/-- JavaScript's `String.prototype.trim()`: strip leading and trailing
whitespace.  (Implemented structurally over the character list so that it
evaluates by kernel reduction; the library `String.trim` is
extensionally the same but does not reduce.) -/
def jsTrim (s : String) : String :=
  ⟨(((s.data.dropWhile Char.isWhitespace).reverse).dropWhile Char.isWhitespace).reverse⟩

/-- `includesEval` (agent source, lines 524-526). -/
def includesEval (allChecks : List EvalEntry) (e : EvalType) : Bool :=
  allChecks.any fun c => c.etype == e

/-- Read `evaluationMetrics[k]` from the record (modelled as an
association list in insertion order; a missing key reads as `[]`). -/
def getMetric (m : List (String × List EvalEntry)) (k : String) : List EvalEntry :=
  (((m.find? fun p => p.1 == k).map fun p => p.2)).getD []

/-- Assign `evaluationMetrics[k] = v` on the record model. -/
def setMetric (m : List (String × List EvalEntry)) (k : String) (v : List EvalEntry) :
    List (String × List EvalEntry) :=
  if m.any fun p => p.1 == k then
    m.map fun p => if p.1 == k then (k, v) else p
  else m ++ [(k, v)]

/-- The metric update on a failed evaluation of the original question
(agent source, lines 975-981): decrement `numEvalsRequired` of every entry
whose type equals the failed evaluation's type, then drop entries whose
budget is no longer positive. -/
def updateMetricsOnFail (l : List EvalEntry) (t : EvalType) : List EvalEntry :=
  (l.map fun e =>
      if e.etype = t then { e with numEvalsRequired := e.numEvalsRequired - 1 } else e).filter
    fun e => 0 < e.numEvalsRequired

/-- Claim-side form of the metric update on a failed evaluation: the entry
of the failed check type has its counter decremented and is removed
exactly when the counter reaches zero; every other entry is unchanged. -/
def metricFailSpec (l : List EvalEntry) (t : EvalType) : List EvalEntry :=
  l.filterMap fun e =>
    if e.etype = t then
      if e.numEvalsRequired - 1 = 0 then none
      else some { e with numEvalsRequired := e.numEvalsRequired - 1 }
    else some e

/-- `gaps.splice(gaps.indexOf(q), 1)` (agent source, lines 1066-1067):
removes the first occurrence of `q`; when `q` is absent, `indexOf` yields
`-1` and `splice(-1, 1)` removes the last element. -/
def spliceRemove (l : List String) (x : String) : List String :=
  if x ∈ l then l.erase x else l.dropLast

/-- The "why is this answer bad" knowledge question template (agent
source, lines 1013-1023). -/
def whyBadQuestion (q ans : String) : String :=
  "Why is the following answer bad for the question? Please reflect\n\n<question>\n"
    ++ q ++ "\n</question>\n\n<answer>\n" ++ ans ++ "\n</answer>\n"

/-- The "why is this answer bad" knowledge answer template (agent source,
lines 1024-1032). -/
def whyBadAnswer (think recap blame improvement : String) : String :=
  think ++ "\n\n" ++ recap ++ "\n\n" ++ blame ++ "\n\n" ++ improvement

/-- The coding knowledge question template (agent source, line 1436). -/
def codingQuestion (issue : String) : String :=
  "What is the solution to the coding issue: " ++ issue ++ "?"

/-! ## Agent control loop: one iteration -/

/-- Result of the pre-dispatch phase of an iteration: the state after the
counter increments it performs, the permission recomputation and the metric
initialisation, together with the selected `currentQuestion` and the gaps
length read by the reflect gate. -/
structure PreOut where
  state : AgentState
  currentQuestion : String
  gapsLenAtSchema : Nat
  deriving DecidableEq, Repr, Inhabited

/-- Pre-dispatch phase of one loop iteration (agent source, lines
707-794): increment `step`/`totalStep`; gate `allowReflect` on
`gaps.length <= MAX_REFLECT_PER_STEP`; rotate `currentQuestion` out of
`gaps` by `totalStep % gaps.length`; initialise the evaluation metrics of
the original question at `totalStep == 1` (appending the forced `strict`
check) and reset a sub-question's metrics to `[]`; force-disable answer
and reflect at step 1 when the current question's checks include
`freshness`; finally gate `allowRead` on having ranked URLs and
`allowSearch` on having fewer than 50 of them (`weightedLen` abstracts the
length of the external `rankURLs`/`keepKPerHostname` output). -/
def iterPre (P : SessionParams) (q : String) (o : StepOracle) (s0 : AgentState) : PreOut :=
  let s1 := { s0 with step := s0.step + 1, totalStep := s0.totalStep + 1 }
  let gapsLen := s1.gaps.length
  let s2 := { s1 with allowReflect := s1.allowReflect && decide (gapsLen ≤ MAX_REFLECT_PER_STEP) }
  let currentQuestion := s2.gaps.getD (s2.totalStep % gapsLen) ""
  let initMetrics :=
    (o.questionEvalTypes.map fun t =>
      ({ etype := t, numEvalsRequired := P.maxBadAttempts } : EvalEntry)) ++
      [{ etype := .strict, numEvalsRequired := P.maxBadAttempts }]
  let s3 :=
    if jsTrim currentQuestion = q ∧ s2.totalStep = 1 then
      { s2 with evaluationMetrics := setMetric s2.evaluationMetrics currentQuestion initMetrics }
    else if jsTrim currentQuestion ≠ q then
      { s2 with evaluationMetrics := setMetric s2.evaluationMetrics currentQuestion [] }
    else s2
  let s4 :=
    if s3.totalStep = 1 ∧ includesEval (getMetric s3.evaluationMetrics currentQuestion) .freshness then
      { s3 with allowAnswer := false, allowReflect := false }
    else s3
  let s5 := { s4 with allowRead := s4.allowRead && decide (0 < o.weightedLen),
                      allowSearch := s4.allowSearch && decide (o.weightedLen < 50) }
  { state := s5, currentQuestion := currentQuestion, gapsLenAtSchema := gapsLen }

/-- Permission reset performed right after the chosen action is recorded
and before dispatching (agent source, lines 866-871). -/
def resetPermissions (s : AgentState) : AgentState :=
  { s with allowAnswer := true, allowReflect := true, allowRead := true,
           allowSearch := true, allowCoding := true }

/-- The `thisStep` record assembled from the generation result (agent
source, lines 846-850); `isFinal` is absent, i.e. `false`. -/
def stepResultOf : AgentAction → StepResult
  | .answer t => { kind := .answer, answerText := t, isFinal := false }
  | .reflect _ => { kind := .reflect, answerText := "", isFinal := false }
  | .search _ => { kind := .search, answerText := "", isFinal := false }
  | .visit _ => { kind := .visit, answerText := "", isFinal := false }
  | .coding _ => { kind := .coding, answerText := "", isFinal := false }

/-- Original-question answer handling after a run evaluation (agent
source, lines 949-1041): disable coding; on pass record the diary entry
and finish (`mainPass`); on fail decrement/remove the failed check's
metric entry via `updateMetricsOnFail`, retain a `strict` improvement
plan, break to forced mode with `isFinal = false` when the metric list is
now empty, and otherwise record the failure analysis as knowledge, disable
`allowAnswer`, and reset the diary and the step counter (the diary entry
pushed at line 996 is erased by the reset at line 1039, so the net diary
length is 0). -/
def handleAnswerMain (o : StepOracle) (s : AgentState) (currentQuestion text : String)
    (pass : Bool) (evalThink : String) : AgentState × Option ExitReason :=
  let s := { s with allowCoding := false }
  if pass then
    ({ s with diaryLen := s.diaryLen + 1, thisStep := { s.thisStep with isFinal := true } },
      some .mainPass)
  else
    let m2 := updateMetricsOnFail (getMetric s.evaluationMetrics currentQuestion) o.evalType
    let s := { s with evaluationMetrics := setMetric s.evaluationMetrics currentQuestion m2 }
    let s :=
      if o.evalType = .strict ∧ o.evalImprovement.getD "" ≠ "" then
        { s with finalAnswerPIP := s.finalAnswerPIP ++ [o.evalImprovement.getD ""] }
      else s
    if m2 = [] then
      ({ s with thisStep := { s.thisStep with isFinal := false } }, some .metricExhausted)
    else
      ({ s with diaryLen := 0, step := 0,
                allKnowledge := s.allKnowledge ++
                  [{ question := whyBadQuestion currentQuestion text,
                     answer := whyBadAnswer evalThink o.errorRecap o.errorBlame
                       o.errorImprovement,
                     ktype := .qa }],
                allowAnswer := false }, none)

/-- Sub-question answer handling (agent source, lines 1042-1075): on pass
push the diary entry, append the solved question/answer as `qa` knowledge
and splice the sub-question out of `gaps`; on fail nothing changes. -/
def handleAnswerSub (s : AgentState) (currentQuestion text now : String) (pass : Bool) :
    AgentState :=
  if pass then
    { s with diaryLen := s.diaryLen + 1,
             allKnowledge := s.allKnowledge ++
               [{ question := currentQuestion, answer := text, ktype := .qa,
                  updated := some now }],
             gaps := spliceRemove s.gaps currentQuestion }
  else s

/-- Result of dispatching the chosen action. -/
structure DispatchOut where
  state : AgentState
  exitReason : Option ExitReason
  ranEvaluation : Bool := false
  executedSearch : Bool := false
  executedVisit : Bool := false
  deriving DecidableEq, Repr, Inhabited

/-- The step executor (agent source, lines 876-1470), for `teamSize = 1`.
Branch guards follow the source's truthiness checks: the answer branch
needs non-empty text, reflect needs `questionsToAnswer` present, search
needs `searchRequests` present, visit needs a non-empty `URLTargets` and a
non-empty `urlList`, coding needs a non-empty issue.  The answer branch
takes the trivial first-step path, or evaluates (only when the current
question's metric list is non-empty; otherwise the default
`{ pass: true }` is used) and hands over to the original-question or
sub-question handler.  A search step either aborts fatally (the
401-Unauthorized path of `executeSearchQueries`) or appends its knowledge
and disables both `allowSearch` and `allowAnswer`; visit disables
`allowRead`; reflect appends the deduplicated new sub-questions to `gaps`
and `allQuestions` and disables `allowReflect`; coding disables
`allowCoding` in its `finally`. -/
def dispatchStep (P : SessionParams) (q : String) (o : StepOracle) (s : AgentState)
    (currentQuestion : String) : DispatchOut :=
  match o.action with
  | .answer text =>
    if text ≠ "" then
      if s.totalStep = 1 ∧ ¬P.noDirectAnswer then
        let sT := { s with thisStep := { s.thisStep with isFinal := true } }
        { state := { sT with trivialQuestion := true },
          exitReason := some .trivialAnswer }
      else
        let metrics := getMetric s.evaluationMetrics currentQuestion
        let ranEval : Bool := decide (0 < metrics.length)
        let pass := if 0 < metrics.length then o.evalPass else true
        let evalThink := if 0 < metrics.length then o.evalThink else ""
        if jsTrim currentQuestion = q then
          let r := handleAnswerMain o s currentQuestion text pass evalThink
          { state := r.1, exitReason := r.2, ranEvaluation := ranEval }
        else
          { state := handleAnswerSub s currentQuestion text o.nowString pass,
            exitReason := none, ranEvaluation := ranEval }
    else { state := s, exitReason := none }
  | .reflect (some _) =>
    let s :=
      if 0 < o.reflectDeduped.length then
        { s with diaryLen := s.diaryLen + 1, gaps := s.gaps ++ o.reflectDeduped,
                 allQuestions := s.allQuestions ++ o.reflectDeduped }
      else { s with diaryLen := s.diaryLen + 1 }
    { state := { s with allowReflect := false }, exitReason := none }
  | .reflect none => { state := s, exitReason := none }
  | .search (some _) =>
    if o.searchAbort then
      { state := s, exitReason := some (.fatal "Unauthorized Jina API key") }
    else
      let sS := { s with allKnowledge := s.allKnowledge ++ o.searchKnowledge,
                         diaryLen := s.diaryLen + 1, allowSearch := false,
                         allowAnswer := false }
      { state := sS, exitReason := none, executedSearch := true }
  | .search none => { state := s, exitReason := none }
  | .visit targets =>
    if 0 < targets.length ∧ 0 < o.urlListLen then
      let sV := { s with allKnowledge := s.allKnowledge ++ o.visitKnowledge,
                         diaryLen := s.diaryLen + 1, allowRead := false }
      { state := sV, exitReason := none, executedVisit := true }
    else { state := s, exitReason := none }
  | .coding issue =>
    if issue ≠ "" then
      let codingItem : Knowledge :=
        { question := codingQuestion issue, answer := o.codingOutput,
          ktype := .coding, updated := some o.nowString }
      let s :=
        if o.codingSuccess then
          { s with allKnowledge := s.allKnowledge ++ [codingItem],
                   diaryLen := s.diaryLen + 1 }
        else { s with diaryLen := s.diaryLen + 1 }
      { state := { s with allowCoding := false }, exitReason := none }
    else { state := s, exitReason := none }

/-- Result of one full loop iteration. -/
structure IterOut where
  state : AgentState
  entry : IterLog
  exitReason : Option ExitReason
  deriving DecidableEq, Repr, Inhabited

/-- One full loop iteration: pre-dispatch phase, schema generation from
the current permissions (the flags snapshot logged here is exactly what
`SchemaGen.getAgentSchema` receives at line 822), action recording,
permission reset, dispatch, and the step's token cost. -/
def iterate (P : SessionParams) (q : String) (o : StepOracle) (s0 : AgentState) : IterOut :=
  let pre := iterPre P q o s0
  let sch := pre.state
  let sR := resetPermissions { sch with thisStep := stepResultOf o.action }
  let d := dispatchStep P q o sR pre.currentQuestion
  { state := { d.state with usage := d.state.usage + o.cost }
    entry := { kind := .regular, startUsage := s0.usage, totalStep := sch.totalStep,
               gapsLenAtSchema := pre.gapsLenAtSchema,
               schemaReflect := sch.allowReflect, schemaRead := sch.allowRead,
               schemaAnswer := sch.allowAnswer, schemaSearch := sch.allowSearch,
               schemaCoding := sch.allowCoding,
               actionKind := o.action.kind, ranEvaluation := d.ranEvaluation,
               executedSearch := d.executedSearch, executedVisit := d.executedVisit }
    exitReason := d.exitReason }

/-! ## Agent control loop: the loop and the session -/

/-- The main loop (agent source, line 706): a new regular iteration starts
only while the total usage is below `tokenBudget * 0.85`
(`regularBudget`, line 668); the scripted oracle list bounds how many
iterations can be modelled. -/
def runLoop (P : SessionParams) (q : String) :
    List StepOracle → AgentState → AgentState × List IterLog × ExitReason
  | [], s => (s, [], .oracleExhausted)
  | o :: rest, s =>
    if 100 * s.usage < 85 * P.tokenBudget then
      let it := iterate P q o s
      match it.exitReason with
      | some r => (it.state, [it.entry], r)
      | none =>
        let rec2 := runLoop P q rest it.state
        (rec2.1, it.entry :: rec2.2.1, rec2.2.2)
    else (s, [], .budget)

/-- Scripted outcome of the single beast-mode generation. -/
structure BeastOracle where
  answerText : String := ""
  cost : Nat := 0
  deriving DecidableEq, Repr, Inhabited

/-- The observable outcome of a session. -/
structure SessionOut where
  finalStep : StepResult
  loopStep : StepResult
  exitReason : ExitReason
  beastRan : Bool
  log : List IterLog
  state : AgentState
  deriving DecidableEq, Repr, Inhabited

/-- The initial session state (agent source, lines 566-670): `gaps` and
`allQuestions` hold the (trimmed) question, all permissions start allowed
except `allowCoding`, and `thisStep` is the placeholder non-final empty
answer. -/
def initialState (q : String) : AgentState :=
  { step := 0, totalStep := 0, gaps := [q], allQuestions := [q], allKnowledge := [],
    evaluationMetrics := [], finalAnswerPIP := [], diaryLen := 0,
    allowAnswer := true, allowSearch := true, allowRead := true, allowReflect := true,
    allowCoding := false,
    usage := 0, thisStep := { kind := .answer, answerText := "", isFinal := false },
    trivialQuestion := false }

/-- The log entry of the single forced/beast-mode step started from loop
state `s`: its schema comes from
`getAgentSchema(false, false, true, false, false, question)` (agent
source, line 1512), only the `answer` action being permitted. -/
def beastEntry (s : AgentState) : IterLog :=
  { kind := .beast, startUsage := s.usage, totalStep := s.totalStep + 1,
    gapsLenAtSchema := s.gaps.length,
    schemaReflect := false, schemaRead := false, schemaAnswer := true,
    schemaSearch := false, schemaCoding := false,
    actionKind := .answer, ranEvaluation := false,
    executedSearch := false, executedVisit := false }

/-- The session model of `getResponse` (`teamSize = 1`): trim the
question, run the main loop, and — unless the loop result is already final
or the loop aborted with the fatal search exception — run the single
forced/beast-mode step (agent source, lines 1485-1537), whose schema is
`getAgentSchema(false, false, true, false, false)` and whose produced
step is marked `isFinal = true` unconditionally. -/
def getResponse (P : SessionParams) (oracles : List StepOracle) (beast : BeastOracle) :
    SessionOut :=
  let q := jsTrim P.question
  let r := runLoop P q oracles (initialState q)
  let s := r.1
  let log := r.2.1
  let reason := r.2.2
  if reason.isFatal then
    { finalStep := s.thisStep, loopStep := s.thisStep, exitReason := reason,
      beastRan := false, log := log, state := s }
  else if s.thisStep.isFinal then
    { finalStep := s.thisStep, loopStep := s.thisStep, exitReason := reason,
      beastRan := false, log := log, state := s }
  else
    let beastStep : StepResult :=
      { kind := .answer, answerText := beast.answerText, isFinal := true }
    let s2 := { s with step := s.step + 1, totalStep := s.totalStep + 1,
                       usage := s.usage + beast.cost, thisStep := beastStep }
    { finalStep := s2.thisStep, loopStep := s.thisStep, exitReason := reason,
      beastRan := true, log := log ++ [beastEntry s], state := s2 }

/-! ## Per-query search execution (`executeSearchQueries`) -/

/-- Outcome of one provider search call for one query: a result list of
the given size, an Axios error with an optional HTTP status, or any other
thrown error. -/
inductive SearchCallResult where
  | ok (resultsCount : Nat)
  | axiosErr (status : Option Nat)
  | otherErr (msg : String)
  deriving DecidableEq, Repr, Inhabited

/-- How a single query is disposed of. -/
inductive QueryOutcome where
  | processed
  | skipped
  | fatal (msg : String)
  deriving DecidableEq, Repr, Inhabited

/-- Per-query error handling of `executeSearchQueries` (agent source,
lines 368-423).  An empty result list raises a plain
`Error('No results found')`, which the catch block treats like any other
failure.  Inside the catch, only an `AxiosError` with status 401 while the
`searchProvider` argument is `'jina'` or `'arxiv'` rethrows
`'Unauthorized Jina API key'`; every other failure hits `continue` and the
query is skipped. -/
def queryDisposition (searchProvider : Option String) (res : SearchCallResult) :
    QueryOutcome :=
  match res with
  | .ok n => if n = 0 then .skipped else .processed
  | .axiosErr status =>
    if status = some 401 ∧ (searchProvider = some "jina" ∨ searchProvider = some "arxiv") then
      .fatal "Unauthorized Jina API key"
    else .skipped
  | .otherErr _ => .skipped

/-- The `for (const query of keywordsQueries)` loop of
`executeSearchQueries`, restricted to the data the claims observe: each
query paired with its provider-call outcome; processed queries are
accumulated into `searchedQueries`, skipped queries are passed over, and a
fatal disposition throws (discarding the accumulator, as the exception
propagates out of the function). -/
def executeSearchQueries (searchProvider : Option String) :
    List (String × SearchCallResult) → Except String (List String)
  | [] => .ok []
  | (q, res) :: rest =>
    match queryDisposition searchProvider res with
    | .fatal m => .error m
    | .skipped => executeSearchQueries searchProvider rest
    | .processed =>
      match executeSearchQueries searchProvider rest with
      | .ok l => .ok (q :: l)
      | .error m => .error m

/-- Whether a query outcome hits the fatal rethrow. -/
def isFatalQuery (searchProvider : Option String) (res : SearchCallResult) : Bool :=
  match queryDisposition searchProvider res with
  | .fatal _ => true
  | _ => false

/-- Whether a query is processed (pushed onto `searchedQueries`). -/
def isProcessedQuery (searchProvider : Option String) (res : SearchCallResult) : Bool :=
  match queryDisposition searchProvider res with
  | .processed => true
  | _ => false

/-! ## Safe object generation (`ObjectGeneratorSafe.generateObject`) -/

/-- A zod schema as a small AST: strings, objects, arrays (with optional
description and max-length metadata), optional wrappers and enums. -/
inductive ZodNode where
  | str (desc : Option String) (maxLen : Option Nat)
  | obj (fields : List (String × ZodNode)) (desc : Option String)
  | arr (elem : ZodNode) (desc : Option String) (maxLen : Option Nat)
  | opt (inner : ZodNode)
  | enumOf (vals : List String) (desc : Option String)

instance : Inhabited ZodNode := ⟨.str none none⟩

mutual

/-- `stripZodDescriptions` (safe-generator source, lines 77-121): objects
are rebuilt field by field (the rebuilt `z.object` carries no description
of its own), arrays are rebuilt from the stripped element (losing the
array's own description and max constraint), strings become bare
`z.string()`, and anything else — including `ZodOptional` wrappers and
enums — is returned as-is. -/
def stripZodDescriptions : ZodNode → ZodNode
  | .obj fields _ => .obj (stripZodFields fields) none
  | .arr elem _ _ => .arr (stripZodDescriptions elem) none none
  | .str _ _ => .str none none
  | .opt inner => .opt inner
  | .enumOf vals desc => .enumOf vals desc

/-- Field-wise recursion for `stripZodDescriptions` on object shapes. -/
def stripZodFields : List (String × ZodNode) → List (String × ZodNode)
  | [] => []
  | (k, v) :: rest => (k, stripZodDescriptions v) :: stripZodFields rest

end

/-- `createDistilledSchema` for zod schemas (safe-generator source,
lines 53-71). -/
def createDistilledSchema (schema : ZodNode) : ZodNode :=
  stripZodDescriptions schema

/-- An error raised by a generation call: the AI SDK's
`NoObjectGeneratedError` carrying the raw model text, or any other
error. -/
inductive GenErr where
  | noObj (text : String)
  | other (msg : String)
  deriving DecidableEq, Repr, Inhabited

/-- Scripted outcomes of the model calls inside `generateObject`:
`primary i` is the result of the i-th primary-model attempt (the initial
call is attempt 0, each bounded retry increments it), `fallback` maps the
extraction prompt text to the fallback model's outcome, and
`parseJson`/`parseHjson` are the two manual parsers applied to raw failed
output. -/
structure GenOracle (α : Type) where
  primary : Nat → Except GenErr α
  fallback : String → Except GenErr α
  parseJson : String → Option α
  parseHjson : String → Option α

/-- The manual tolerant parse: strict `JSON.parse` first, then
`Hjson.parse` (safe-generator source, lines 337-367). -/
def tolerantParse (o : GenOracle α) (text : String) : Option α :=
  match o.parseJson text with
  | some t => some t
  | none => o.parseHjson text

/-- `handleGenerateObjectError` (safe-generator source, lines 331-370):
only a `NoObjectGeneratedError` is manually parsed — strict JSON first,
then Hjson — and on total parse failure the original error is rethrown;
any other error is rethrown immediately. -/
def handleGenerateObjectError (o : GenOracle α) : GenErr → Except GenErr α
  | .noObj text =>
    match tolerantParse o text with
    | some t => .ok t
    | none => .error (.noObj text)
  | .other m => .error (.other m)

/-- `substring match at position i` helper for `lastIndexOf`. -/
def substrAt (s pat : String) (i : Nat) : Bool :=
  ((s.drop i).take pat.length) == pat

/-- `String.prototype.lastIndexOf` on character positions. -/
def lastIndexOfSubstr (s pat : String) : Option Nat :=
  ((List.range (s.length + 1)).filter fun i => substrAt s pat i).getLast?

/-- The failed-output extraction before the fallback-model call
(safe-generator source, lines 267-269):
`failedOutput.slice(0, Math.min(failedOutput.lastIndexOf('"url":'), 8000))`;
when the marker is absent `lastIndexOf` is `-1` and `slice(0, -1)` drops
the final character.  (Positions are modelled on characters rather than
UTF-16 units.) -/
def extractFailedOutput (text : String) : String :=
  match lastIndexOfSubstr text "\"url\":" with
  | some i => text.take (min i 8000)
  | none => text.dropRight 1

/-- Observable events of one `generateObject` run, in order: a
primary-model call (per attempt), a manual tolerant parse of a failed
output, the fallback-model call (with the distilled schema and the
extraction prompt), and the manual tolerant parse of the fallback's failed
output. -/
inductive GenEvent where
  | primaryCall (attempt : Nat)
  | manualParse (text : String)
  | fallbackCall (distilledSchema : ZodNode) (prompt : String)
  | fallbackManualParse (text : String)

instance : Inhabited GenEvent := ⟨.primaryCall 0⟩

/-- The tier structure of `ObjectGeneratorSafe.generateObject`
(safe-generator source, lines 175-325), as a function of the scripted
call outcomes: primary call; on failure, manual tolerant parse (inside
`handleGenerateObjectError`, so only for `NoObjectGeneratedError`); on
failure, a recursive retry while `numRetries > 0`; with retries exhausted,
the fallback model with the distilled schema and the extracted failed
text; on its failure, the manual parse of the fallback error; and if
everything failed, the (this invocation's) primary error is rethrown. -/
def generateObjectModel (o : GenOracle α) (schema : ZodNode) :
    Nat → Nat → List GenEvent × Except GenErr α
  | attempt, numRetries =>
    match o.primary attempt with
    | .ok t => ([.primaryCall attempt], .ok t)
    | .error e =>
      let parseEvents : List GenEvent :=
        match e with
        | .noObj text => [.manualParse text]
        | .other _ => []
      match handleGenerateObjectError o e with
      | .ok t => ([.primaryCall attempt] ++ parseEvents, .ok t)
      | .error _ =>
        match numRetries with
        | n + 1 =>
          let r := generateObjectModel o schema (attempt + 1) n
          ([.primaryCall attempt] ++ parseEvents ++ r.1, r.2)
        | 0 =>
          let failedOutput :=
            match e with
            | .noObj text => extractFailedOutput text
            | .other _ => ""
          let distilled := createDistilledSchema schema
          match o.fallback failedOutput with
          | .ok t =>
            ([.primaryCall attempt] ++ parseEvents ++ [.fallbackCall distilled failedOutput],
              .ok t)
          | .error fe =>
            let fbParseEvents : List GenEvent :=
              match fe with
              | .noObj t2 => [.fallbackManualParse t2]
              | .other _ => []
            match handleGenerateObjectError o fe with
            | .ok t =>
              ([.primaryCall attempt] ++ parseEvents ++
                [.fallbackCall distilled failedOutput] ++ fbParseEvents, .ok t)
            | .error _ =>
              ([.primaryCall attempt] ++ parseEvents ++
                [.fallbackCall distilled failedOutput] ++ fbParseEvents, .error e)

/-- Whether attempt `i` fails both its primary call and the manual parse
of its error. -/
def tierFails (o : GenOracle α) (i : Nat) : Bool :=
  match o.primary i with
  | .ok _ => false
  | .error e =>
    match handleGenerateObjectError o e with
    | .ok _ => false
    | .error _ => true

/-- The events attempt `i` contributes: its primary call, and the manual
parse exactly when the failure is a `NoObjectGeneratedError`. -/
def tierEvents (o : GenOracle α) (i : Nat) : List GenEvent :=
  match o.primary i with
  | .ok _ => [.primaryCall i]
  | .error (.noObj text) => [.primaryCall i, .manualParse text]
  | .error (.other _) => [.primaryCall i]

/-- The extraction prompt derived from attempt `i`'s primary error. -/
def failedOutputAt (o : GenOracle α) (i : Nat) : String :=
  match o.primary i with
  | .error (.noObj text) => extractFailedOutput text
  | _ => ""

/-! ## Concrete instances used by the witness theorems -/

/-- Witness session (C1): with `maxBadAttempts = 1` a single failing
`strict` evaluation empties the original question's metric list. -/
def exhaustP : SessionParams :=
  { question := "main", tokenBudget := 100, maxBadAttempts := 1, noDirectAnswer := true }

/-- Witness oracle list (C1): one failing answer evaluation. -/
def exhaustOracles : List StepOracle :=
  [{ action := .answer "a", evalPass := false, evalType := .strict, cost := 1 }]

/-- Witness beast-mode oracle. -/
def forcedBeast : BeastOracle := { answerText := "forced answer", cost := 1 }

/-- Witness session (C2): a direct first-step answer. -/
def trivialP : SessionParams := { question := "what is 7 times 9", tokenBudget := 1000 }

/-- Witness oracle (C2): the model answers immediately. -/
def trivialOracle : StepOracle := { action := .answer "63", cost := 1 }

/-- Witness session (C5, C10): reflect grows `gaps` to 3, then a search
step runs with reflect gated off. -/
def reflectP : SessionParams := { question := "main", tokenBudget := 100 }

/-- Witness oracle list (C5, C10). -/
def reflectOracles : List StepOracle :=
  [{ action := .reflect (some ["sub1", "sub2"]), reflectDeduped := ["sub1", "sub2"],
     cost := 1 },
   { action := .search (some ["x"]), cost := 1 }]

/-- Witness session (C8): the original question needs freshness. -/
def freshP : SessionParams := { question := "latest news", tokenBudget := 100 }

/-- Witness oracle (C8): `evaluateQuestion` reports a freshness check. -/
def freshOracle : StepOracle :=
  { action := .search (some ["x"]), questionEvalTypes := [.freshness], cost := 1 }

/-- Witness state (C6): a session state holding one sub-question. -/
def subState : AgentState := { initialState "main" with gaps := ["main", "sub"] }

/-- Witness oracle (C4): a search action. -/
def searchOracle : StepOracle := { action := .search (some ["x"]), cost := 1 }

/-- Witness generation oracle (C7, payload type `Nat`): every tier fails —
the primary error is a `NoObjectGeneratedError`, both manual parsers fail,
and the fallback model fails with a plain error. -/
def allFailGen : GenOracle Nat :=
  { primary := fun _ => .error (.noObj "txt"),
    fallback := fun _ => .error (.other "fb"),
    parseJson := fun _ => none,
    parseHjson := fun _ => none }

/-! ## Supporting lemmas on the loop model -/

theorem iterPre_totalStep (P : SessionParams) (q : String) (o : StepOracle) (s : AgentState) :
    (iterPre P q o s).state.totalStep = s.totalStep + 1 := by
  simp only [iterPre]
  split_ifs <;> rfl

theorem iterPre_usage (P : SessionParams) (q : String) (o : StepOracle) (s : AgentState) :
    (iterPre P q o s).state.usage = s.usage := by
  simp only [iterPre]
  split_ifs <;> rfl

theorem iterPre_gaps (P : SessionParams) (q : String) (o : StepOracle) (s : AgentState) :
    (iterPre P q o s).state.gaps = s.gaps := by
  simp only [iterPre]
  split_ifs <;> rfl

theorem iterPre_gapsLenAtSchema (P : SessionParams) (q : String) (o : StepOracle)
    (s : AgentState) : (iterPre P q o s).gapsLenAtSchema = s.gaps.length := by
  simp only [iterPre]

theorem iterPre_thisStep (P : SessionParams) (q : String) (o : StepOracle) (s : AgentState) :
    (iterPre P q o s).state.thisStep = s.thisStep := by
  simp only [iterPre]
  split_ifs <;> rfl

theorem iterPre_reflect_false (P : SessionParams) (q : String) (o : StepOracle)
    (s : AgentState) (h : MAX_REFLECT_PER_STEP < s.gaps.length) :
    (iterPre P q o s).state.allowReflect = false := by
  simp only [iterPre]
  split_ifs <;> simp [Nat.not_le.mpr h]

theorem handleAnswerMain_usage (o : StepOracle) (s : AgentState) (cq text : String)
    (pass : Bool) (evalThink : String) :
    (handleAnswerMain o s cq text pass evalThink).1.usage = s.usage := by
  simp only [handleAnswerMain]
  split_ifs <;> rfl

theorem handleAnswerMain_thisStep_onExhaust (o : StepOracle) (s : AgentState)
    (cq text : String) (pass : Bool) (evalThink : String)
    (h : (handleAnswerMain o s cq text pass evalThink).2 = some .metricExhausted) :
    (handleAnswerMain o s cq text pass evalThink).1.thisStep.isFinal = false := by
  simp only [handleAnswerMain] at h ⊢
  split_ifs at h ⊢ <;> simp_all

theorem handleAnswerSub_usage (s : AgentState) (cq text now : String) (pass : Bool) :
    (handleAnswerSub s cq text now pass).usage = s.usage := by
  simp only [handleAnswerSub]; split_ifs <;> rfl

theorem dispatchStep_usage (P : SessionParams) (q : String) (o : StepOracle) (s : AgentState)
    (cq : String) : (dispatchStep P q o s cq).state.usage = s.usage := by
  rcases h : o.action with text | oqs | oreqs | ts | issue
  · simp only [dispatchStep, h]
    split_ifs
    all_goals first
      | rfl
      | exact handleAnswerMain_usage ..
      | exact handleAnswerSub_usage ..
  · rcases oqs with _ | qs <;> simp only [dispatchStep, h] <;> split_ifs <;> rfl
  · rcases oreqs with _ | reqs
    · simp only [dispatchStep, h]
    · simp only [dispatchStep, h]; split_ifs <;> rfl
  · simp only [dispatchStep, h]; split_ifs <;> rfl
  · simp only [dispatchStep, h]; split_ifs <;> rfl

theorem dispatchStep_thisStep_onExhaust (P : SessionParams) (q : String) (o : StepOracle)
    (s : AgentState) (cq : String)
    (h : (dispatchStep P q o s cq).exitReason = some .metricExhausted) :
    (dispatchStep P q o s cq).state.thisStep.isFinal = false := by
  rcases ha : o.action with text | oqs | oreqs | ts | issue
  · simp only [dispatchStep, ha] at h ⊢
    split_ifs at h ⊢
    all_goals first
      | exact handleAnswerMain_thisStep_onExhaust _ _ _ _ _ _ h
      | simp_all
  · rcases oqs with _ | qs <;> simp only [dispatchStep, ha] at h ⊢ <;> simp_all
  · rcases oreqs with _ | reqs
    · simp only [dispatchStep, ha] at h
      simp at h
    · simp only [dispatchStep, ha] at h ⊢
      split_ifs at h ⊢ <;> simp_all
  · simp only [dispatchStep, ha] at h ⊢; split_ifs at h ⊢ <;> simp_all
  · simp only [dispatchStep, ha] at h ⊢; split_ifs at h ⊢ <;> simp_all

theorem iterate_entry_kind (P : SessionParams) (q : String) (o : StepOracle) (s : AgentState) :
    (iterate P q o s).entry.kind = .regular := rfl

theorem iterate_entry_startUsage (P : SessionParams) (q : String) (o : StepOracle)
    (s : AgentState) : (iterate P q o s).entry.startUsage = s.usage := rfl

theorem iterate_entry_gapsLen (P : SessionParams) (q : String) (o : StepOracle)
    (s : AgentState) : (iterate P q o s).entry.gapsLenAtSchema = s.gaps.length := by
  show (iterPre P q o s).gapsLenAtSchema = s.gaps.length
  simp only [iterPre]

theorem iterate_entry_schemaReflect (P : SessionParams) (q : String) (o : StepOracle)
    (s : AgentState) :
    (iterate P q o s).entry.schemaReflect = (iterPre P q o s).state.allowReflect := rfl

theorem iterate_usage (P : SessionParams) (q : String) (o : StepOracle) (s : AgentState) :
    (iterate P q o s).state.usage = s.usage + o.cost := by
  show (dispatchStep P q o _ _).state.usage + o.cost = s.usage + o.cost
  rw [dispatchStep_usage]
  show (iterPre P q o s).state.usage + o.cost = s.usage + o.cost
  rw [iterPre_usage]

theorem iterate_thisStep_onExhaust (P : SessionParams) (q : String) (o : StepOracle)
    (s : AgentState) (h : (iterate P q o s).exitReason = some .metricExhausted) :
    (iterate P q o s).state.thisStep.isFinal = false := by
  have h2 : (dispatchStep P q o (resetPermissions
      { (iterPre P q o s).state with thisStep := stepResultOf o.action })
      (iterPre P q o s).currentQuestion).exitReason = some .metricExhausted := h
  exact dispatchStep_thisStep_onExhaust _ _ _ _ _ h2

theorem runLoop_log_regular (P : SessionParams) (q : String) :
    ∀ (os : List StepOracle) (s : AgentState),
      ∀ e ∈ (runLoop P q os s).2.1, e.kind = .regular := by
  intro os
  induction os with
  | nil => intro s e he; simp [runLoop] at he
  | cons o rest ih =>
    intro s e he
    by_cases hc : 100 * s.usage < 85 * P.tokenBudget
    · simp only [runLoop, if_pos hc] at he
      rcases hE : (iterate P q o s).exitReason with _ | r <;> simp only [hE] at he
      · rcases List.mem_cons.mp he with h | h
        · rw [h]; exact iterate_entry_kind ..
        · exact ih _ _ h
      · simp only [List.mem_singleton] at he
        rw [he]; exact iterate_entry_kind ..
    · simp only [runLoop, if_neg hc] at he
      simp at he

theorem runLoop_log_startUsage (P : SessionParams) (q : String) :
    ∀ (os : List StepOracle) (s : AgentState),
      ∀ e ∈ (runLoop P q os s).2.1, 100 * e.startUsage < 85 * P.tokenBudget := by
  intro os
  induction os with
  | nil => intro s e he; simp [runLoop] at he
  | cons o rest ih =>
    intro s e he
    by_cases hc : 100 * s.usage < 85 * P.tokenBudget
    · simp only [runLoop, if_pos hc] at he
      rcases hE : (iterate P q o s).exitReason with _ | r <;> simp only [hE] at he
      · rcases List.mem_cons.mp he with h | h
        · rw [h, iterate_entry_startUsage]; exact hc
        · exact ih _ _ h
      · simp only [List.mem_singleton] at he
        rw [he, iterate_entry_startUsage]; exact hc
    · simp only [runLoop, if_neg hc] at he
      simp at he

theorem runLoop_log_reflectGate (P : SessionParams) (q : String) :
    ∀ (os : List StepOracle) (s : AgentState),
      ∀ e ∈ (runLoop P q os s).2.1,
        MAX_REFLECT_PER_STEP < e.gapsLenAtSchema → e.schemaReflect = false := by
  intro os
  induction os with
  | nil => intro s e he; simp [runLoop] at he
  | cons o rest ih =>
    intro s e he hgap
    by_cases hc : 100 * s.usage < 85 * P.tokenBudget
    · simp only [runLoop, if_pos hc] at he
      rcases hE : (iterate P q o s).exitReason with _ | r <;> simp only [hE] at he
      · rcases List.mem_cons.mp he with h | h
        · subst h
          rw [iterate_entry_gapsLen] at hgap
          rw [iterate_entry_schemaReflect]
          exact iterPre_reflect_false P q o s hgap
        · exact ih _ _ h hgap
      · simp only [List.mem_singleton] at he
        subst he
        rw [iterate_entry_gapsLen] at hgap
        rw [iterate_entry_schemaReflect]
        exact iterPre_reflect_false P q o s hgap
    · simp only [runLoop, if_neg hc] at he
      simp at he

theorem runLoop_exhausted_isFinal (P : SessionParams) (q : String) :
    ∀ (os : List StepOracle) (s : AgentState),
      (runLoop P q os s).2.2 = .metricExhausted →
        (runLoop P q os s).1.thisStep.isFinal = false := by
  intro os
  induction os with
  | nil => intro s h; simp [runLoop] at h
  | cons o rest ih =>
    intro s h
    by_cases hc : 100 * s.usage < 85 * P.tokenBudget
    · simp only [runLoop, if_pos hc] at h ⊢
      rcases hE : (iterate P q o s).exitReason with _ | r <;> simp only [hE] at h ⊢
      · exact ih _ h
      · rw [h] at hE
        exact iterate_thisStep_onExhaust P q o s hE
    · simp only [runLoop, if_neg hc] at h
      simp at h

theorem getResponse_eq_noBeast (P : SessionParams) (oracles : List StepOracle)
    (beast : BeastOracle) (s : AgentState) (log : List IterLog) (r : ExitReason)
    (h : runLoop P (jsTrim P.question) oracles (initialState (jsTrim P.question)) = (s, log, r))
    (hnf : r.isFatal = false) (hfin : s.thisStep.isFinal = true) :
    getResponse P oracles beast =
      { finalStep := s.thisStep, loopStep := s.thisStep, exitReason := r,
        beastRan := false, log := log, state := s } := by
  simp only [getResponse, h, hnf, hfin]
  simp

theorem getResponse_eq_beastMode (P : SessionParams) (oracles : List StepOracle)
    (beast : BeastOracle) (s : AgentState) (log : List IterLog) (r : ExitReason)
    (h : runLoop P (jsTrim P.question) oracles (initialState (jsTrim P.question)) = (s, log, r))
    (hnf : r.isFatal = false) (hfin : s.thisStep.isFinal = false) :
    getResponse P oracles beast =
      { finalStep := { kind := .answer, answerText := beast.answerText, isFinal := true },
        loopStep := s.thisStep, exitReason := r, beastRan := true,
        log := log ++ [beastEntry s],
        state := { s with step := s.step + 1, totalStep := s.totalStep + 1,
                          usage := s.usage + beast.cost,
                          thisStep := { kind := .answer, answerText := beast.answerText,
                                        isFinal := true } } } := by
  simp only [getResponse, h, hnf, hfin]
  simp

theorem getResponse_eq_fatal (P : SessionParams) (oracles : List StepOracle)
    (beast : BeastOracle) (s : AgentState) (log : List IterLog) (r : ExitReason)
    (h : runLoop P (jsTrim P.question) oracles (initialState (jsTrim P.question)) = (s, log, r))
    (hf : r.isFatal = true) :
    getResponse P oracles beast =
      { finalStep := s.thisStep, loopStep := s.thisStep, exitReason := r,
        beastRan := false, log := log, state := s } := by
  simp only [getResponse, h, hf]
  simp

theorem reflect_not_in_keys : ∀ rd a s c : Bool,
    "reflect" ∉ agentActionKeys false rd a s c := by decide

/-- C10: in every started regular loop step, whenever more than
`MAX_REFLECT_PER_STEP` (= 2) gap questions are outstanding at the reflect
gate, the schema for that step is generated with `allowReflect = false`,
so the `reflect` action is excluded from its action enum regardless of the
cooldown state of the flag. -/
theorem reflect_gated_by_gap_count :
    ∀ (P : SessionParams) (oracles : List StepOracle) (beast : BeastOracle),
      ∀ e ∈ (getResponse P oracles beast).log,
        e.kind = .regular → MAX_REFLECT_PER_STEP < e.gapsLenAtSchema →
          e.schemaReflect = false ∧
          "reflect" ∉ agentActionKeys e.schemaReflect e.schemaRead e.schemaAnswer
            e.schemaSearch e.schemaCoding := by
  intro P oracles beast e he hk hgap
  rcases hr : runLoop P (jsTrim P.question) oracles (initialState (jsTrim P.question)) with ⟨st, lg, r⟩
  have hmem : e ∈ lg → e.schemaReflect = false := by
    intro hm
    have h2 := runLoop_log_reflectGate P (jsTrim P.question) oracles (initialState (jsTrim P.question))
    rw [hr] at h2
    exact h2 e hm hgap
  rcases hf : r.isFatal with _ | _
  · rcases hfin : st.thisStep.isFinal with _ | _
    · rw [getResponse_eq_beastMode P oracles beast st lg r hr hf hfin] at he
      simp only [List.mem_append, List.mem_singleton] at he
      rcases he with hm | hb
      · have h1 := hmem hm
        exact ⟨h1, by rw [h1]; exact reflect_not_in_keys _ _ _ _⟩
      · rw [hb] at hk
        simp [beastEntry] at hk
    · rw [getResponse_eq_noBeast P oracles beast st lg r hr hf hfin] at he
      have h1 := hmem he
      exact ⟨h1, by rw [h1]; exact reflect_not_in_keys _ _ _ _⟩
  · rw [getResponse_eq_fatal P oracles beast st lg r hr hf] at he
    have h1 := hmem he
    exact ⟨h1, by rw [h1]; exact reflect_not_in_keys _ _ _ _⟩

/-- The exact integer form of the budget guard coincides with the
rational reading of `totalTokens < tokenBudget * 0.85`. -/
theorem usage_lt_threshold_cast (u b : Nat) (h : 100 * u < 85 * b) :
    (u : ℚ) < 85 / 100 * (b : ℚ) := by
  rw [div_mul_eq_mul_div, lt_div_iff (by norm_num : (0 : ℚ) < 100)]
  calc (u : ℚ) * 100 = ((100 * u : ℕ) : ℚ) := by push_cast; ring
    _ < ((85 * b : ℕ) : ℚ) := by exact_mod_cast h
    _ = 85 * (b : ℚ) := by push_cast; ring

/-- C5: a regular loop iteration is started only while the total tokens
used so far are strictly below 0.85 times the token budget (stated in the
exact integer form `100 * usage < 85 * budget` and in the rational form
`usage < 85/100 * budget`); every step of the session log except possibly
the last is a regular one, and at most one forced/beast-mode step (exempt
from the threshold) appears. -/
theorem regular_step_budget_threshold :
    ∀ (P : SessionParams) (oracles : List StepOracle) (beast : BeastOracle),
      (∀ e ∈ (getResponse P oracles beast).log,
        e.kind = .regular → 100 * e.startUsage < 85 * P.tokenBudget ∧
          (e.startUsage : ℚ) < 85 / 100 * (P.tokenBudget : ℚ)) ∧
      (∀ e ∈ (getResponse P oracles beast).log.dropLast, e.kind = .regular) ∧
      ((getResponse P oracles beast).log.filter fun e => e.kind == .beast).length ≤ 1 := by
  intro P oracles beast
  rcases hr : runLoop P (jsTrim P.question) oracles (initialState (jsTrim P.question)) with ⟨st, lg, r⟩
  have hreg : ∀ e ∈ lg, e.kind = .regular := by
    have h2 := runLoop_log_regular P (jsTrim P.question) oracles (initialState (jsTrim P.question))
    rw [hr] at h2; exact h2
  have husage0 : ∀ e ∈ lg, 100 * e.startUsage < 85 * P.tokenBudget := by
    have h2 := runLoop_log_startUsage P (jsTrim P.question) oracles (initialState (jsTrim P.question))
    rw [hr] at h2; exact h2
  have husage : ∀ e ∈ lg, 100 * e.startUsage < 85 * P.tokenBudget ∧
      (e.startUsage : ℚ) < 85 / 100 * (P.tokenBudget : ℚ) :=
    fun e he => ⟨husage0 e he, usage_lt_threshold_cast _ _ (husage0 e he)⟩
  have hfilter : (lg.filter fun e => e.kind == .beast) = [] := by
    rw [List.filter_eq_nil_iff]
    intro a ha
    simp [hreg a ha]
  rcases hf : r.isFatal with _ | _
  · rcases hfin : st.thisStep.isFinal with _ | _
    · rw [getResponse_eq_beastMode P oracles beast st lg r hr hf hfin]
      refine ⟨?_, ?_, ?_⟩
      · intro e he hk
        simp only [List.mem_append, List.mem_singleton] at he
        rcases he with hm | hb
        · exact husage e hm
        · rw [hb] at hk; simp [beastEntry] at hk
      · intro e he
        rw [List.dropLast_concat] at he
        exact hreg e he
      · rw [List.filter_append, hfilter]
        simp [beastEntry]
    · rw [getResponse_eq_noBeast P oracles beast st lg r hr hf hfin]
      exact ⟨fun e he _ => husage e he,
        fun e he => hreg e (List.mem_of_mem_dropLast he),
        by rw [hfilter]; simp⟩
  · rw [getResponse_eq_fatal P oracles beast st lg r hr hf]
    exact ⟨fun e he _ => husage e he,
      fun e he => hreg e (List.mem_of_mem_dropLast he),
      by rw [hfilter]; simp⟩

theorem session_isFinal_of_notFatal (P : SessionParams) (oracles : List StepOracle)
    (beast : BeastOracle)
    (h : ((getResponse P oracles beast).exitReason).isFatal = false) :
    (getResponse P oracles beast).finalStep.isFinal = true := by
  rcases hr : runLoop P (jsTrim P.question) oracles (initialState (jsTrim P.question)) with ⟨st, lg, r⟩
  rcases hf : r.isFatal with _ | _
  · rcases hfin : st.thisStep.isFinal with _ | _
    · rw [getResponse_eq_beastMode P oracles beast st lg r hr hf hfin]
    · rw [getResponse_eq_noBeast P oracles beast st lg r hr hf hfin]
      exact hfin
  · rw [getResponse_eq_fatal P oracles beast st lg r hr hf] at h
    have h2 : r.isFatal = false := h
    rw [h2] at hf
    cases hf

theorem session_exhausted (P : SessionParams) (oracles : List StepOracle)
    (beast : BeastOracle)
    (h : (getResponse P oracles beast).exitReason = .metricExhausted) :
    (getResponse P oracles beast).loopStep.isFinal = false ∧
    (getResponse P oracles beast).beastRan = true ∧
    ((getResponse P oracles beast).log.getLast?.map fun e =>
      (e.kind, e.schemaReflect, e.schemaRead, e.schemaAnswer, e.schemaSearch,
        e.schemaCoding)) = some (.beast, false, false, true, false, false) := by
  rcases hr : runLoop P (jsTrim P.question) oracles (initialState (jsTrim P.question)) with ⟨st, lg, r⟩
  have hIsF0 := runLoop_exhausted_isFinal P (jsTrim P.question) oracles (initialState (jsTrim P.question))
  rw [hr] at hIsF0
  have hIsF : r = ExitReason.metricExhausted → st.thisStep.isFinal = false := fun hh => hIsF0 hh
  rcases hf : r.isFatal with _ | _
  · rcases hfin : st.thisStep.isFinal with _ | _
    · rw [getResponse_eq_beastMode P oracles beast st lg r hr hf hfin]
      refine ⟨hfin, rfl, ?_⟩
      rw [List.getLast?_concat]
      rfl
    · rw [getResponse_eq_noBeast P oracles beast st lg r hr hf hfin] at h
      have h2 : r = ExitReason.metricExhausted := h
      rw [hIsF h2] at hfin
      cases hfin
  · rw [getResponse_eq_fatal P oracles beast st lg r hr hf] at h
    have h2 : r = ExitReason.metricExhausted := h
    rw [h2] at hf
    cases hf

theorem beast_schema_only_answer : agentActionKeys false false true false false = ["answer"] := by
  decide

/-- C9: for every combination of the five permission flags,
`getAgentSchema` produces an action enum holding exactly the permitted
action kinds (and nothing else, without duplicates), and one optional
sub-schema per permitted kind with the source's field limits: at most 5
search queries, at most 5 visit URL indices, at most 2 reflect questions,
and a coding-issue string of at most 500 characters. -/
theorem agent_schema_enum_and_sublimits :
    ∀ r rd a s c : Bool,
      (("search" ∈ agentActionKeys r rd a s c) ↔ s = true) ∧
      (("visit" ∈ agentActionKeys r rd a s c) ↔ rd = true) ∧
      (("answer" ∈ agentActionKeys r rd a s c) ↔ a = true) ∧
      (("reflect" ∈ agentActionKeys r rd a s c) ↔ r = true) ∧
      (("coding" ∈ agentActionKeys r rd a s c) ↔ c = true) ∧
      (∀ k ∈ agentActionKeys r rd a s c,
        k = "search" ∨ k = "visit" ∨ k = "answer" ∨ k = "reflect" ∨ k = "coding") ∧
      (agentActionKeys r rd a s c).Nodup ∧
      ((getAgentSchema r rd a s c).searchSub =
        if s = true then
          some { maxQueries := MAX_QUERIES_PER_STEP, queryMinLen := 1, queryMaxLen := 30,
                 isOptional := true } else none) ∧
      ((getAgentSchema r rd a s c).visitSub =
        if rd = true then some { maxTargets := MAX_URLS_PER_STEP, isOptional := true }
        else none) ∧
      ((getAgentSchema r rd a s c).reflectSub =
        if r = true then some { maxQuestions := MAX_REFLECT_PER_STEP, isOptional := true }
        else none) ∧
      ((getAgentSchema r rd a s c).codingSub =
        if c = true then some { issueMaxLen := 500, isOptional := true } else none) ∧
      ((getAgentSchema r rd a s c).answerSub =
        if a = true then some { isOptional := true } else none) := by
  decide

theorem updateMetricsOnFail_eq_spec (l : List EvalEntry) (t : EvalType)
    (h : ∀ e ∈ l, 1 ≤ e.numEvalsRequired) :
    updateMetricsOnFail l t = metricFailSpec l t := by
  induction l with
  | nil => rfl
  | cons e rest ih =>
    have he : (1 : Int) ≤ e.numEvalsRequired := h e (by simp)
    have hrest : ∀ x ∈ rest, 1 ≤ x.numEvalsRequired :=
      fun x hx => h x (List.mem_cons_of_mem e hx)
    have ih2 := ih hrest
    simp only [updateMetricsOnFail, metricFailSpec, List.map_cons, List.filter_cons,
      List.filterMap_cons] at ih2 ⊢
    by_cases ht : e.etype = t
    · by_cases hz : e.numEvalsRequired - 1 = 0
      · have hn : ¬ (0 : Int) < e.numEvalsRequired - 1 := by omega
        simp [ht, hz, hn, ih2]
      · have hp : (0 : Int) < e.numEvalsRequired - 1 := by omega
        simp [ht, hz, hp, ih2]
    · have hp : (0 : Int) < e.numEvalsRequired := by omega
      simp [ht, hp, ih2]

theorem dispatchStep_trivial (P : SessionParams) (q : String) (o : StepOracle)
    (s : AgentState) (cq text : String) (hAct : o.action = .answer text) (hTxt : text ≠ "")
    (hStep : s.totalStep = 1) (hNo : P.noDirectAnswer = false) :
    dispatchStep P q o s cq =
      { state := { s with thisStep := { s.thisStep with isFinal := true },
                          trivialQuestion := true },
        exitReason := some .trivialAnswer } := by
  simp only [dispatchStep, hAct]
  rw [if_pos hTxt, if_pos (⟨hStep, by simp [hNo]⟩ : s.totalStep = 1 ∧ ¬P.noDirectAnswer)]

theorem iterate_trivial (P : SessionParams) (q : String) (o : StepOracle) (s : AgentState)
    (text : String) (hAct : o.action = .answer text) (hTxt : text ≠ "")
    (hStep : s.totalStep = 0) (hNo : P.noDirectAnswer = false) :
    (iterate P q o s).exitReason = some .trivialAnswer ∧
    (iterate P q o s).state.thisStep =
      { kind := .answer, answerText := text, isFinal := true } ∧
    (iterate P q o s).state.trivialQuestion = true ∧
    (iterate P q o s).entry.ranEvaluation = false ∧
    (iterate P q o s).entry.executedSearch = false ∧
    (iterate P q o s).entry.executedVisit = false ∧
    (iterate P q o s).entry.actionKind = .answer := by
  have hsR : (resetPermissions
      { (iterPre P q o s).state with thisStep := stepResultOf o.action }).totalStep = 1 := by
    show (iterPre P q o s).state.totalStep = 1
    rw [iterPre_totalStep, hStep]
  have hd := dispatchStep_trivial P q o
    (resetPermissions { (iterPre P q o s).state with thisStep := stepResultOf o.action })
    (iterPre P q o s).currentQuestion text hAct hTxt hsR hNo
  refine ⟨?_, ?_, ?_, ?_, ?_, ?_, ?_⟩
  · show (dispatchStep P q o _ _).exitReason = _
    rw [hd]
  · show ({ (dispatchStep P q o (resetPermissions
        { (iterPre P q o s).state with thisStep := stepResultOf o.action })
        (iterPre P q o s).currentQuestion).state with
          usage := _ }).thisStep = _
    rw [hd]
    simp [hAct, stepResultOf, resetPermissions]
  · show ({ (dispatchStep P q o (resetPermissions
        { (iterPre P q o s).state with thisStep := stepResultOf o.action })
        (iterPre P q o s).currentQuestion).state with
          usage := _ }).trivialQuestion = _
    rw [hd]
  · show (dispatchStep P q o _ _).ranEvaluation = _
    rw [hd]
  · show (dispatchStep P q o _ _).executedSearch = _
    rw [hd]
  · show (dispatchStep P q o _ _).executedVisit = _
    rw [hd]
  · show o.action.kind = _
    rw [hAct]
    rfl

/-- C2: if at `totalStep = 1` the chosen action is `answer` with
non-empty text and `noDirectAnswer` is false, the step is final
(`isFinal = true`, `trivialQuestion` set), no evaluation is run, the loop
terminates immediately after this single logged step, beast mode is
skipped, and no search or visit branch ever executes in the session. -/
theorem trivial_first_step_fast_path (P : SessionParams) (o : StepOracle) (rest : List StepOracle)
    (beast : BeastOracle) (text : String)
    (hAct : o.action = .answer text) (hTxt : text ≠ "")
    (hNo : P.noDirectAnswer = false) (hB : 0 < P.tokenBudget) :
    (getResponse P (o :: rest) beast).finalStep.isFinal = true ∧
    (getResponse P (o :: rest) beast).state.trivialQuestion = true ∧
    (getResponse P (o :: rest) beast).exitReason = .trivialAnswer ∧
    (getResponse P (o :: rest) beast).beastRan = false ∧
    (getResponse P (o :: rest) beast).log.length = 1 ∧
    (∀ e ∈ (getResponse P (o :: rest) beast).log,
      e.ranEvaluation = false ∧ e.executedSearch = false ∧ e.executedVisit = false ∧
      e.actionKind = .answer) := by
  have hguard : 100 * (initialState (jsTrim P.question)).usage < 85 * P.tokenBudget := by
    show 100 * 0 < 85 * P.tokenBudget
    simpa using Nat.mul_pos (by norm_num : 0 < 85) hB
  obtain ⟨hE, hTS, hTQ, hRE, hES, hEV, hAK⟩ :=
    iterate_trivial P (jsTrim P.question) o (initialState (jsTrim P.question)) text hAct hTxt rfl hNo
  have hrun : runLoop P (jsTrim P.question) (o :: rest) (initialState (jsTrim P.question)) =
      ((iterate P (jsTrim P.question) o (initialState (jsTrim P.question))).state,
        [(iterate P (jsTrim P.question) o (initialState (jsTrim P.question))).entry],
        .trivialAnswer) := by
    simp only [runLoop, if_pos hguard, hE]
  have hfin : (iterate P (jsTrim P.question) o (initialState (jsTrim P.question))).state.thisStep.isFinal
      = true := by
    rw [hTS]
  have hout := getResponse_eq_noBeast P (o :: rest) beast _ _ _ hrun rfl hfin
  rw [hout]
  refine ⟨hfin, hTQ, rfl, rfl, rfl, ?_⟩
  intro e he
  simp only [List.mem_singleton] at he
  subst he
  exact ⟨hRE, hES, hEV, hAK⟩

theorem iterPre_freshness_force (P : SessionParams) (q : String) (o : StepOracle)
    (hqq : jsTrim q = q) (hFresh : EvalType.freshness ∈ o.questionEvalTypes) :
    (iterPre P q o (initialState q)).state.allowAnswer = false ∧
    (iterPre P q o (initialState q)).state.allowReflect = false := by
  simp only [iterPre, initialState]
  simp [hqq, includesEval, setMetric, getMetric, hFresh]

theorem iterate_entry_schemaAnswer (P : SessionParams) (q : String) (o : StepOracle)
    (s : AgentState) :
    (iterate P q o s).entry.schemaAnswer = (iterPre P q o s).state.allowAnswer := rfl

theorem iterate_entry_totalStep (P : SessionParams) (q : String) (o : StepOracle)
    (s : AgentState) : (iterate P q o s).entry.totalStep = s.totalStep + 1 := by
  show (iterPre P q o s).state.totalStep = s.totalStep + 1
  exact iterPre_totalStep ..

theorem runLoop_head (P : SessionParams) (q : String) (o : StepOracle)
    (rest : List StepOracle) (s : AgentState) (hc : 100 * s.usage < 85 * P.tokenBudget) :
    (runLoop P q (o :: rest) s).2.1.head? = some (iterate P q o s).entry := by
  simp only [runLoop, if_pos hc]
  rcases hE : (iterate P q o s).exitReason with _ | r <;> simp [hE]

theorem head?_append_of_head? {α : Type} (l l' : List α) (a : α) (h : l.head? = some a) :
    (l ++ l').head? = some a := by
  rcases l with _ | ⟨x, xs⟩
  · simp at h
  · simp at h ⊢; exact h

theorem keys_no_answer_reflect : ∀ rd s c : Bool,
    ∀ k ∈ agentActionKeys false rd false s c,
      k = "search" ∨ k = "coding" ∨ k = "visit" := by decide

/-- C8: when the original (pre-trimmed) question's evaluation checks
include `freshness`, the first step's schema is generated with
`allowAnswer = false` and `allowReflect = false`, so its action enum only
contains `search`, `coding` and `visit`. -/
theorem freshness_step_one_forces_search_visit_coding (P : SessionParams) (o : StepOracle) (rest : List StepOracle)
    (beast : BeastOracle) (hq : (jsTrim P.question) = P.question)
    (hFresh : EvalType.freshness ∈ o.questionEvalTypes) (hB : 0 < P.tokenBudget) :
    (getResponse P (o :: rest) beast).log ≠ [] ∧
    ∀ e, (getResponse P (o :: rest) beast).log.head? = some e →
      e.schemaAnswer = false ∧ e.schemaReflect = false ∧ e.totalStep = 1 ∧
      (∀ k ∈ agentActionKeys e.schemaReflect e.schemaRead e.schemaAnswer e.schemaSearch
        e.schemaCoding, k = "search" ∨ k = "coding" ∨ k = "visit") := by
  have hguard : 100 * (initialState (jsTrim P.question)).usage < 85 * P.tokenBudget := by
    show 100 * 0 < 85 * P.tokenBudget
    simpa using Nat.mul_pos (by norm_num : 0 < 85) hB
  have hqt : jsTrim (jsTrim P.question) = jsTrim P.question := by simp [hq]
  have hforce := iterPre_freshness_force P (jsTrim P.question) o hqt hFresh
  have hhead0 := runLoop_head P (jsTrim P.question) o rest (initialState (jsTrim P.question)) hguard
  have hEntry : ∀ e,
      e = (iterate P (jsTrim P.question) o (initialState (jsTrim P.question))).entry →
      e.schemaAnswer = false ∧ e.schemaReflect = false ∧ e.totalStep = 1 ∧
      (∀ k ∈ agentActionKeys e.schemaReflect e.schemaRead e.schemaAnswer e.schemaSearch
        e.schemaCoding, k = "search" ∨ k = "coding" ∨ k = "visit") := by
    intro e he
    subst he
    have hA : (iterate P (jsTrim P.question) o (initialState (jsTrim P.question))).entry.schemaAnswer
        = false := by rw [iterate_entry_schemaAnswer]; exact hforce.1
    have hR : (iterate P (jsTrim P.question) o (initialState (jsTrim P.question))).entry.schemaReflect
        = false := by rw [iterate_entry_schemaReflect]; exact hforce.2
    refine ⟨hA, hR, ?_, ?_⟩
    · rw [iterate_entry_totalStep]
      rfl
    · rw [hA, hR]
      exact keys_no_answer_reflect _ _ _
  rcases hr : runLoop P (jsTrim P.question) (o :: rest) (initialState (jsTrim P.question))
    with ⟨st, lg, r⟩
  rw [hr] at hhead0
  have hlgne : lg ≠ [] := by
    intro hh; subst hh; simp at hhead0
  rcases hf : r.isFatal with _ | _
  · rcases hfin : st.thisStep.isFinal with _ | _
    · rw [getResponse_eq_beastMode P (o :: rest) beast st lg r hr hf hfin]
      constructor
      · simp [hlgne]
      · intro e he
        rw [head?_append_of_head? lg _ _ hhead0] at he
        have he2 : e = (iterate P (jsTrim P.question) o (initialState (jsTrim P.question))).entry := by
          injection he.symm
        exact hEntry e he2
    · rw [getResponse_eq_noBeast P (o :: rest) beast st lg r hr hf hfin]
      refine ⟨hlgne, ?_⟩
      intro e he
      rw [hhead0] at he
      have he2 : e = (iterate P (jsTrim P.question) o (initialState (jsTrim P.question))).entry := by
        injection he.symm
      exact hEntry e he2
  · rw [getResponse_eq_fatal P (o :: rest) beast st lg r hr hf]
    refine ⟨hlgne, ?_⟩
    intro e he
    rw [hhead0] at he
    have he2 : e = (iterate P (jsTrim P.question) o (initialState (jsTrim P.question))).entry := by
      injection he.symm
    exact hEntry e he2

theorem dispatchStep_search_flags (P : SessionParams) (q : String) (o : StepOracle)
    (s : AgentState) (cq : String) (reqs : List String)
    (hAct : o.action = .search (some reqs)) (hAb : o.searchAbort = false) :
    (dispatchStep P q o s cq).state.allowSearch = false ∧
    (dispatchStep P q o s cq).state.allowAnswer = false ∧
    (dispatchStep P q o s cq).state.allowRead = s.allowRead ∧
    (dispatchStep P q o s cq).state.allowReflect = s.allowReflect ∧
    (dispatchStep P q o s cq).state.allowCoding = s.allowCoding := by
  simp [dispatchStep, hAct, hAb]

theorem dispatchStep_visit_flags (P : SessionParams) (q : String) (o : StepOracle)
    (s : AgentState) (cq : String) (ts : List Nat)
    (hAct : o.action = .visit ts) (hts : ts ≠ []) (hurl : 0 < o.urlListLen) :
    (dispatchStep P q o s cq).state.allowRead = false ∧
    (dispatchStep P q o s cq).state.allowAnswer = s.allowAnswer ∧
    (dispatchStep P q o s cq).state.allowSearch = s.allowSearch ∧
    (dispatchStep P q o s cq).state.allowReflect = s.allowReflect ∧
    (dispatchStep P q o s cq).state.allowCoding = s.allowCoding := by
  have hlen : 0 < ts.length := List.length_pos.mpr hts
  simp [dispatchStep, hAct, hlen, hurl]

theorem dispatchStep_reflect_flags (P : SessionParams) (q : String) (o : StepOracle)
    (s : AgentState) (cq : String) (qs : List String)
    (hAct : o.action = .reflect (some qs)) :
    (dispatchStep P q o s cq).state.allowReflect = false ∧
    (dispatchStep P q o s cq).state.allowAnswer = s.allowAnswer ∧
    (dispatchStep P q o s cq).state.allowSearch = s.allowSearch ∧
    (dispatchStep P q o s cq).state.allowRead = s.allowRead ∧
    (dispatchStep P q o s cq).state.allowCoding = s.allowCoding := by
  simp only [dispatchStep, hAct]
  split_ifs <;> simp

theorem dispatchStep_coding_flags (P : SessionParams) (q : String) (o : StepOracle)
    (s : AgentState) (cq : String) (issue : String)
    (hAct : o.action = .coding issue) (hIss : issue ≠ "") :
    (dispatchStep P q o s cq).state.allowCoding = false ∧
    (dispatchStep P q o s cq).state.allowAnswer = s.allowAnswer ∧
    (dispatchStep P q o s cq).state.allowSearch = s.allowSearch ∧
    (dispatchStep P q o s cq).state.allowRead = s.allowRead ∧
    (dispatchStep P q o s cq).state.allowReflect = s.allowReflect := by
  simp only [dispatchStep, hAct]
  rw [if_pos hIss]
  split_ifs <;> simp

/-- C4: after the per-iteration reset of all five permission flags to
`true`, the dispatched action re-disables its own flag for the next
iteration — search, visit, reflect and coding each set their flag false
(all other flags remain the reset `true`) — and the search action
additionally sets `allowAnswer` false. -/
theorem permission_reset_and_action_cooldowns (P : SessionParams) (q : String) (o : StepOracle) (s : AgentState) :
    (∀ reqs, o.action = .search (some reqs) → o.searchAbort = false →
      (iterate P q o s).state.allowSearch = false ∧
      (iterate P q o s).state.allowAnswer = false ∧
      (iterate P q o s).state.allowRead = true ∧
      (iterate P q o s).state.allowReflect = true ∧
      (iterate P q o s).state.allowCoding = true) ∧
    (∀ ts, o.action = .visit ts → ts ≠ [] → 0 < o.urlListLen →
      (iterate P q o s).state.allowRead = false ∧
      (iterate P q o s).state.allowAnswer = true ∧
      (iterate P q o s).state.allowSearch = true ∧
      (iterate P q o s).state.allowReflect = true ∧
      (iterate P q o s).state.allowCoding = true) ∧
    (∀ qs, o.action = .reflect (some qs) →
      (iterate P q o s).state.allowReflect = false ∧
      (iterate P q o s).state.allowAnswer = true ∧
      (iterate P q o s).state.allowSearch = true ∧
      (iterate P q o s).state.allowRead = true ∧
      (iterate P q o s).state.allowCoding = true) ∧
    (∀ issue, o.action = .coding issue → issue ≠ "" →
      (iterate P q o s).state.allowCoding = false ∧
      (iterate P q o s).state.allowAnswer = true ∧
      (iterate P q o s).state.allowSearch = true ∧
      (iterate P q o s).state.allowRead = true ∧
      (iterate P q o s).state.allowReflect = true) := by
  refine ⟨?_, ?_, ?_, ?_⟩
  · intro reqs hAct hAb
    obtain ⟨h1, h2, h3, h4, h5⟩ := dispatchStep_search_flags P q o
      (resetPermissions { (iterPre P q o s).state with thisStep := stepResultOf o.action })
      (iterPre P q o s).currentQuestion reqs hAct hAb
    exact ⟨h1, h2, h3.trans rfl, h4.trans rfl, h5.trans rfl⟩
  · intro ts hAct hts hurl
    obtain ⟨h1, h2, h3, h4, h5⟩ := dispatchStep_visit_flags P q o
      (resetPermissions { (iterPre P q o s).state with thisStep := stepResultOf o.action })
      (iterPre P q o s).currentQuestion ts hAct hts hurl
    exact ⟨h1, h2.trans rfl, h3.trans rfl, h4.trans rfl, h5.trans rfl⟩
  · intro qs hAct
    obtain ⟨h1, h2, h3, h4, h5⟩ := dispatchStep_reflect_flags P q o
      (resetPermissions { (iterPre P q o s).state with thisStep := stepResultOf o.action })
      (iterPre P q o s).currentQuestion qs hAct
    exact ⟨h1, h2.trans rfl, h3.trans rfl, h4.trans rfl, h5.trans rfl⟩
  · intro issue hAct hIss
    obtain ⟨h1, h2, h3, h4, h5⟩ := dispatchStep_coding_flags P q o
      (resetPermissions { (iterPre P q o s).state with thisStep := stepResultOf o.action })
      (iterPre P q o s).currentQuestion issue hAct hIss
    exact ⟨h1, h2.trans rfl, h3.trans rfl, h4.trans rfl, h5.trans rfl⟩

/-- C6: when a sub-question's answer evaluation passes, the sub-question
is removed from `gaps` exactly once (the first occurrence; all other
entries keep their multiplicity) and a `qa` knowledge item recording its
question and answer is appended, with metrics, permissions and the
improvement-plan list untouched; when the evaluation fails, the state is
completely unchanged. -/
theorem subquestion_pass_removes_gap_fail_no_change (s : AgentState) (cq text now : String) :
    (cq ∈ s.gaps →
      (handleAnswerSub s cq text now true).allKnowledge =
        s.allKnowledge ++
          [{ question := cq, answer := text, ktype := .qa, updated := some now }] ∧
      (handleAnswerSub s cq text now true).gaps.count cq + 1 = s.gaps.count cq ∧
      (∀ x, x ≠ cq → (handleAnswerSub s cq text now true).gaps.count x = s.gaps.count x) ∧
      (handleAnswerSub s cq text now true).evaluationMetrics = s.evaluationMetrics ∧
      (handleAnswerSub s cq text now true).diaryLen = s.diaryLen + 1 ∧
      (handleAnswerSub s cq text now true).allowAnswer = s.allowAnswer ∧
      (handleAnswerSub s cq text now true).allowSearch = s.allowSearch ∧
      (handleAnswerSub s cq text now true).allowRead = s.allowRead ∧
      (handleAnswerSub s cq text now true).allowReflect = s.allowReflect ∧
      (handleAnswerSub s cq text now true).allowCoding = s.allowCoding ∧
      (handleAnswerSub s cq text now true).finalAnswerPIP = s.finalAnswerPIP) ∧
    handleAnswerSub s cq text now false = s := by
  constructor
  · intro hmem
    have hgaps : (handleAnswerSub s cq text now true).gaps = s.gaps.erase cq := by
      simp [handleAnswerSub, spliceRemove, hmem]
    refine ⟨by simp [handleAnswerSub], ?_, ?_, by simp [handleAnswerSub],
      by simp [handleAnswerSub], by simp [handleAnswerSub], by simp [handleAnswerSub],
      by simp [handleAnswerSub], by simp [handleAnswerSub], by simp [handleAnswerSub],
      by simp [handleAnswerSub]⟩
    · rw [hgaps, List.count_erase_self]
      have := List.count_pos_iff.mpr hmem
      omega
    · intro x hx
      rw [hgaps]
      exact List.count_erase_of_ne hx _
  · simp [handleAnswerSub]

theorem isFatalQuery_iff (p : Option String) (res : SearchCallResult) :
    isFatalQuery p res = true ↔
      (res = SearchCallResult.axiosErr (some 401) ∧
        (p = some "jina" ∨ p = some "arxiv")) := by
  rcases res with n | st | msg <;> simp [isFatalQuery, queryDisposition] <;>
    split_ifs <;> simp_all

theorem queryDisposition_fatal (p : Option String) (res : SearchCallResult) (m : String) :
    queryDisposition p res = .fatal m ↔
      (m = "Unauthorized Jina API key" ∧ res = SearchCallResult.axiosErr (some 401) ∧
        (p = some "jina" ∨ p = some "arxiv")) := by
  rcases res with n | st | msg
  · simp only [queryDisposition]
    split_ifs <;> simp
  · simp only [queryDisposition]
    split_ifs with h <;> simp_all <;> exact eq_comm
  · simp [queryDisposition]

/-- C3 (amended): during search execution every query whose provider
call fails or returns zero results is skipped and the remaining queries
are still processed; the sole exception — raising
`'Unauthorized Jina API key'` which aborts the session — is an Axios 401
failure while the `searchProvider` argument is `'jina'` or `'arxiv'`. -/
theorem search_failures_skip_except_jina_401 :
    ∀ (p : Option String) (l : List (String × SearchCallResult)),
      (executeSearchQueries p l =
        if l.any (fun qr => isFatalQuery p qr.2) then
          Except.error "Unauthorized Jina API key"
        else Except.ok ((l.filter fun qr => isProcessedQuery p qr.2).map fun qr => qr.1)) ∧
      (∀ res, isFatalQuery p res = true ↔
        (res = SearchCallResult.axiosErr (some 401) ∧
          (p = some "jina" ∨ p = some "arxiv"))) := by
  intro p l
  refine ⟨?_, fun res => isFatalQuery_iff p res⟩
  induction l with
  | nil => simp [executeSearchQueries]
  | cons hd tl ih =>
    rcases hd with ⟨qq, res⟩
    rcases hdisp : queryDisposition p res with _ | _ | m
    · have hf : isFatalQuery p res = false := by simp [isFatalQuery, hdisp]
      have hp : isProcessedQuery p res = true := by simp [isProcessedQuery, hdisp]
      by_cases hany : tl.any (fun qr => isFatalQuery p qr.2)
      · simp only [executeSearchQueries, hdisp]
        rw [ih]
        simp [hany, hf, hp]
      · simp only [executeSearchQueries, hdisp]
        rw [ih]
        simp [hany, hf, hp]
    · have hf : isFatalQuery p res = false := by simp [isFatalQuery, hdisp]
      have hp : isProcessedQuery p res = false := by simp [isProcessedQuery, hdisp]
      simp only [executeSearchQueries, hdisp]
      rw [ih]
      by_cases hany : tl.any (fun qr => isFatalQuery p qr.2) <;> simp [hany, hf, hp]
    · have hm := (queryDisposition_fatal p res m).mp hdisp
      have hf : isFatalQuery p res = true := by simp [isFatalQuery, hdisp]
      simp only [executeSearchQueries, hdisp]
      simp [hf, hm.1]


/-- C3 (counterexample): a 401 authorization failure from the `brave`
search provider does not raise `'Unauthorized Jina API key'` — the query
is skipped and execution continues, contradicting the claim that a 401
from any search provider aborts the session. -/
theorem search_401_brave_not_fatal :
    executeSearchQueries (some "brave") [("q", SearchCallResult.axiosErr (some 401))] =
      Except.ok [] ∧
    executeSearchQueries (some "brave") [("q", SearchCallResult.axiosErr (some 401))] ≠
      Except.error "Unauthorized Jina API key" := by
  refine ⟨rfl, ?_⟩
  intro h
  rw [show executeSearchQueries (some "brave")
      [("q", SearchCallResult.axiosErr (some 401))] = Except.ok [] from rfl] at h
  exact Except.noConfusion h

theorem tierEvents_noObj {α : Type} (o : GenOracle α) (i : Nat) (text : String)
    (h : o.primary i = .error (.noObj text)) :
    tierEvents o i = [.primaryCall i, .manualParse text] := by
  simp [tierEvents, h]

theorem tierEvents_other {α : Type} (o : GenOracle α) (i : Nat) (m : String)
    (h : o.primary i = .error (.other m)) :
    tierEvents o i = [.primaryCall i] := by
  simp [tierEvents, h]

/-- C7: the fallback tiers of `generateObject` run in order — primary
call; manual tolerant parse (strict JSON then Hjson) applied only to a
`NoObjectGeneratedError`; bounded retries (a recursive run at the next
attempt index); the fallback model invoked with the distilled
(description-stripped) schema and the extracted failed text; tolerant
parse of the fallback's failure; and only when every tier fails is this
invocation's primary error rethrown. -/
theorem generate_object_fallback_tier_order {α : Type} (o : GenOracle α) (schema : ZodNode) (attempt n : Nat) :
    (∀ t, o.primary attempt = .ok t →
      generateObjectModel o schema attempt n = ([.primaryCall attempt], .ok t)) ∧
    (∀ text t, o.primary attempt = .error (.noObj text) → tolerantParse o text = some t →
      generateObjectModel o schema attempt n =
        ([.primaryCall attempt, .manualParse text], .ok t)) ∧
    (∀ m, o.primary attempt = .error (.other m) →
      tierEvents o attempt = [.primaryCall attempt] ∧
      handleGenerateObjectError o (.other m) = .error (.other m)) ∧
    (tierFails o attempt = true →
      generateObjectModel o schema attempt (n + 1) =
        (tierEvents o attempt ++ (generateObjectModel o schema (attempt + 1) n).1,
          (generateObjectModel o schema (attempt + 1) n).2)) ∧
    (∀ t, tierFails o attempt = true →
      o.fallback (failedOutputAt o attempt) = .ok t →
      generateObjectModel o schema attempt 0 =
        (tierEvents o attempt ++
          [.fallbackCall (createDistilledSchema schema) (failedOutputAt o attempt)], .ok t)) ∧
    (∀ ft t2, tierFails o attempt = true →
      o.fallback (failedOutputAt o attempt) = .error (.noObj ft) →
      tolerantParse o ft = some t2 →
      generateObjectModel o schema attempt 0 =
        (tierEvents o attempt ++
          [.fallbackCall (createDistilledSchema schema) (failedOutputAt o attempt),
            .fallbackManualParse ft], .ok t2)) ∧
    (∀ e fe, tierFails o attempt = true →
      o.primary attempt = .error e →
      o.fallback (failedOutputAt o attempt) = .error fe →
      (∀ u, handleGenerateObjectError o fe ≠ .ok u) →
      generateObjectModel o schema attempt 0 =
        (tierEvents o attempt ++
          [.fallbackCall (createDistilledSchema schema) (failedOutputAt o attempt)] ++
          (match fe with | .noObj ft => [.fallbackManualParse ft] | .other _ => []),
          .error e)) := by
  refine ⟨?_, ?_, ?_, ?_, ?_, ?_, ?_⟩
  · intro t h
    simp [generateObjectModel, h]
  · intro text t h1 h2
    simp [generateObjectModel, h1, handleGenerateObjectError, h2]
  · intro m h
    exact ⟨tierEvents_other o attempt m h, rfl⟩
  · intro hFail
    rcases hp : o.primary attempt with e | t
    · rcases hh : handleGenerateObjectError o e with e2 | u
      · rcases e with text | m
        · conv_lhs => rw [generateObjectModel.eq_def]
          simp only [hp, hh]
          simp [tierEvents, hp]
        · conv_lhs => rw [generateObjectModel.eq_def]
          simp only [hp, hh]
          simp [tierEvents, hp]
      · simp [tierFails, hp, hh] at hFail
    · simp [tierFails, hp] at hFail
  · intro t hFail hfb
    rcases hp : o.primary attempt with e | u
    · rcases hh : handleGenerateObjectError o e with e2 | u
      · rcases e with text | m
        · have hout : failedOutputAt o attempt = extractFailedOutput text := by
            simp [failedOutputAt, hp]
          rw [hout] at hfb
          simp [generateObjectModel, hp, hh, hfb, tierEvents, createDistilledSchema, hout]
        · have hout : failedOutputAt o attempt = "" := by
            simp [failedOutputAt, hp]
          rw [hout] at hfb
          simp [generateObjectModel, hp, hh, hfb, tierEvents, createDistilledSchema, hout]
      · simp [tierFails, hp, hh] at hFail
    · simp [tierFails, hp] at hFail
  · intro ft t2 hFail hfb hparse
    rcases hp : o.primary attempt with e | u
    · rcases hh : handleGenerateObjectError o e with e2 | u
      · have hhf : handleGenerateObjectError o (.noObj ft) = .ok t2 := by
          simp [handleGenerateObjectError, hparse]
        rcases e with text | m
        · have hout : failedOutputAt o attempt = extractFailedOutput text := by
            simp [failedOutputAt, hp]
          rw [hout] at hfb
          simp [generateObjectModel, hp, hh, hfb, hhf, tierEvents, createDistilledSchema, hout]
        · have hout : failedOutputAt o attempt = "" := by
            simp [failedOutputAt, hp]
          rw [hout] at hfb
          simp [generateObjectModel, hp, hh, hfb, hhf, tierEvents, createDistilledSchema, hout]
      · simp [tierFails, hp, hh] at hFail
    · simp [tierFails, hp] at hFail
  · intro e fe hFail hp hfb hnok
    rcases hh : handleGenerateObjectError o e with e2 | u
    swap
    · simp [tierFails, hp, hh] at hFail
    · have hhf : ∃ e3, handleGenerateObjectError o fe = .error e3 := by
        rcases hx : handleGenerateObjectError o fe with e3 | u
        · exact ⟨e3, rfl⟩
        · exact absurd hx (hnok u)
      rcases hhf with ⟨e3, hhf⟩
      rcases e with text | m
      · have hout : failedOutputAt o attempt = extractFailedOutput text := by
          simp [failedOutputAt, hp]
        rw [hout] at hfb
        rcases fe with ft | fm
        · simp [generateObjectModel, hp, hh, hfb, hhf, tierEvents, createDistilledSchema, hout]
        · simp [generateObjectModel, hp, hh, hfb, hhf, tierEvents, createDistilledSchema, hout]
      · have hout : failedOutputAt o attempt = "" := by
          simp [failedOutputAt, hp]
        rw [hout] at hfb
        rcases fe with ft | fm
        · simp [generateObjectModel, hp, hh, hfb, hhf, tierEvents, createDistilledSchema, hout]
        · simp [generateObjectModel, hp, hh, hfb, hhf, tierEvents, createDistilledSchema, hout]


/-- C1: for the original question, a failed answer evaluation decrements
the remaining-attempt counter of exactly the failed check type, removing
the check once its counter reaches zero (`updateMetricsOnFail` coincides
with the claim-side `metricFailSpec` on positive-budget lists); once the
metric list becomes empty, the loop exits `metricExhausted` with
`isFinal = false`; the subsequent forced/beast-mode step's schema permits
only the `answer` action, the step is final unconditionally, and every
session that does not abort fatally ends with a final answer. -/
theorem metric_exhaustion_and_forced_final (l : List EvalEntry) (t : EvalType)
    (h : ∀ e ∈ l, 1 ≤ e.numEvalsRequired) (P : SessionParams)
    (oracles : List StepOracle) (beast : BeastOracle) :
    updateMetricsOnFail l t = metricFailSpec l t ∧
    ((getResponse P oracles beast).exitReason = .metricExhausted →
      (getResponse P oracles beast).loopStep.isFinal = false ∧
      (getResponse P oracles beast).beastRan = true ∧
      ((getResponse P oracles beast).log.getLast?.map fun e =>
        (e.kind, e.schemaReflect, e.schemaRead, e.schemaAnswer, e.schemaSearch,
          e.schemaCoding)) = some (.beast, false, false, true, false, false)) ∧
    (((getResponse P oracles beast).exitReason).isFatal = false →
      (getResponse P oracles beast).finalStep.isFinal = true) ∧
    agentActionKeys false false true false false = ["answer"] :=
  ⟨updateMetricsOnFail_eq_spec l t h,
   fun hx => session_exhausted P oracles beast hx,
   fun hx => session_isFinal_of_notFatal P oracles beast hx,
   beast_schema_only_answer⟩

/-! ## Witness theorems -/

/-- Witness for C1: a concrete one-step session with `maxBadAttempts = 1`
exhausts the metric list and forces a final beast-mode answer. -/
theorem metric_exhaustion_and_forced_final_witness :
    (∀ e ∈ [({ etype := .strict, numEvalsRequired := 2 } : EvalEntry)],
      1 ≤ e.numEvalsRequired) ∧
    updateMetricsOnFail [{ etype := .strict, numEvalsRequired := 2 }] .strict =
      metricFailSpec [{ etype := .strict, numEvalsRequired := 2 }] .strict ∧
    (getResponse exhaustP exhaustOracles forcedBeast).exitReason = .metricExhausted ∧
    (getResponse exhaustP exhaustOracles forcedBeast).loopStep.isFinal = false ∧
    (getResponse exhaustP exhaustOracles forcedBeast).beastRan = true ∧
    (getResponse exhaustP exhaustOracles forcedBeast).finalStep.isFinal = true ∧
    agentActionKeys false false true false false = ["answer"] :=
  ⟨by decide,
   (metric_exhaustion_and_forced_final [{ etype := .strict, numEvalsRequired := 2 }] .strict
     (by decide) exhaustP exhaustOracles forcedBeast).1,
   by decide,
   ((metric_exhaustion_and_forced_final [{ etype := .strict, numEvalsRequired := 2 }] .strict
     (by decide) exhaustP exhaustOracles forcedBeast).2.1 (by decide)).1,
   ((metric_exhaustion_and_forced_final [{ etype := .strict, numEvalsRequired := 2 }] .strict
     (by decide) exhaustP exhaustOracles forcedBeast).2.1 (by decide)).2.1,
   (metric_exhaustion_and_forced_final [{ etype := .strict, numEvalsRequired := 2 }] .strict
     (by decide) exhaustP exhaustOracles forcedBeast).2.2.1 (by decide),
   (metric_exhaustion_and_forced_final [{ etype := .strict, numEvalsRequired := 2 }] .strict
     (by decide) exhaustP exhaustOracles forcedBeast).2.2.2⟩

/-- Witness for C2: the question answered directly at the first step. -/
theorem trivial_first_step_fast_path_witness :
    trivialOracle.action = .answer "63" ∧ ("63" : String) ≠ "" ∧
    trivialP.noDirectAnswer = false ∧ 0 < trivialP.tokenBudget ∧
    (getResponse trivialP [trivialOracle] forcedBeast).finalStep.isFinal = true ∧
    (getResponse trivialP [trivialOracle] forcedBeast).exitReason = .trivialAnswer ∧
    (getResponse trivialP [trivialOracle] forcedBeast).log.length = 1 :=
  ⟨rfl, by decide, rfl, by decide,
   (trivial_first_step_fast_path trivialP trivialOracle [] forcedBeast "63" rfl (by decide)
     rfl (by decide)).1,
   (trivial_first_step_fast_path trivialP trivialOracle [] forcedBeast "63" rfl (by decide)
     rfl (by decide)).2.2.1,
   (trivial_first_step_fast_path trivialP trivialOracle [] forcedBeast "63" rfl (by decide)
     rfl (by decide)).2.2.2.2.1⟩

/-- Witness for C3 (amended): skipped failures with a later processed
query, a fatal Jina 401, and the fatal-condition characterisation. -/
theorem search_failures_skip_except_jina_401_witness :
    executeSearchQueries (some "jina")
      [("a", SearchCallResult.ok 0), ("b", SearchCallResult.otherErr "x"),
        ("c", SearchCallResult.ok 3)] = Except.ok ["c"] ∧
    executeSearchQueries (some "jina")
      [("a", SearchCallResult.ok 2), ("b", SearchCallResult.axiosErr (some 401))] =
      Except.error "Unauthorized Jina API key" ∧
    (isFatalQuery (some "jina") (SearchCallResult.axiosErr (some 401)) = true ↔
      (SearchCallResult.axiosErr (some 401) = SearchCallResult.axiosErr (some 401) ∧
        ((some "jina" : Option String) = some "jina" ∨
          (some "jina" : Option String) = some "arxiv"))) :=
  ⟨((search_failures_skip_except_jina_401 (some "jina")
      [("a", SearchCallResult.ok 0), ("b", SearchCallResult.otherErr "x"),
        ("c", SearchCallResult.ok 3)]).1).trans rfl,
   ((search_failures_skip_except_jina_401 (some "jina")
      [("a", SearchCallResult.ok 2), ("b", SearchCallResult.axiosErr (some 401))]).1).trans
     rfl,
   (search_failures_skip_except_jina_401 (some "jina") []).2
     (SearchCallResult.axiosErr (some 401))⟩

/-- Witness for C4: a concrete search step leaves search and answer
disabled for the next iteration and every other flag reset to true. -/
theorem permission_reset_and_action_cooldowns_witness :
    searchOracle.action = .search (some ["x"]) ∧ searchOracle.searchAbort = false ∧
    (iterate reflectP "main" searchOracle (initialState "main")).state.allowSearch = false ∧
    (iterate reflectP "main" searchOracle (initialState "main")).state.allowAnswer = false ∧
    (iterate reflectP "main" searchOracle (initialState "main")).state.allowRead = true ∧
    (iterate reflectP "main" searchOracle (initialState "main")).state.allowReflect = true ∧
    (iterate reflectP "main" searchOracle (initialState "main")).state.allowCoding = true :=
  ⟨rfl, rfl,
   ((permission_reset_and_action_cooldowns reflectP "main" searchOracle
     (initialState "main")).1 ["x"] rfl rfl).1,
   ((permission_reset_and_action_cooldowns reflectP "main" searchOracle
     (initialState "main")).1 ["x"] rfl rfl).2.1,
   ((permission_reset_and_action_cooldowns reflectP "main" searchOracle
     (initialState "main")).1 ["x"] rfl rfl).2.2.1,
   ((permission_reset_and_action_cooldowns reflectP "main" searchOracle
     (initialState "main")).1 ["x"] rfl rfl).2.2.2.1,
   ((permission_reset_and_action_cooldowns reflectP "main" searchOracle
     (initialState "main")).1 ["x"] rfl rfl).2.2.2.2⟩

/-- Witness for C5: the threshold and log-shape facts instantiated at a
concrete two-step session followed by beast mode. -/
theorem regular_step_budget_threshold_witness :
    (∀ e ∈ (getResponse reflectP reflectOracles forcedBeast).log,
      e.kind = .regular → 100 * e.startUsage < 85 * reflectP.tokenBudget ∧
        (e.startUsage : ℚ) < 85 / 100 * (reflectP.tokenBudget : ℚ)) ∧
    (∀ e ∈ (getResponse reflectP reflectOracles forcedBeast).log.dropLast,
      e.kind = .regular) ∧
    ((getResponse reflectP reflectOracles forcedBeast).log.filter
      fun e => e.kind == .beast).length ≤ 1 :=
  regular_step_budget_threshold reflectP reflectOracles forcedBeast

/-- Witness for C6: solving the sub-question `"sub"` removes it from the
gaps exactly once and appends the `qa` knowledge item, while a failed
evaluation leaves the state untouched. -/
theorem subquestion_pass_removes_gap_fail_no_change_witness :
    ("sub" ∈ subState.gaps) ∧
    (handleAnswerSub subState "sub" "an answer" "now" true).allKnowledge =
      subState.allKnowledge ++
        [{ question := "sub", answer := "an answer", ktype := .qa, updated := some "now" }] ∧
    (handleAnswerSub subState "sub" "an answer" "now" true).gaps.count "sub" + 1 =
      subState.gaps.count "sub" ∧
    handleAnswerSub subState "sub" "an answer" "now" false = subState :=
  ⟨by decide,
   ((subquestion_pass_removes_gap_fail_no_change subState "sub" "an answer" "now").1
     (by decide)).1,
   ((subquestion_pass_removes_gap_fail_no_change subState "sub" "an answer" "now").1
     (by decide)).2.1,
   (subquestion_pass_removes_gap_fail_no_change subState "sub" "an answer" "now").2⟩

/-- Witness for C7: with every tier failing, the run performs the primary
call, the manual parse, the fallback call with the distilled schema, and
rethrows the primary `NoObjectGeneratedError`. -/
theorem generate_object_fallback_tier_order_witness :
    tierFails allFailGen 0 = true ∧
    tierEvents allFailGen 0 = [.primaryCall 0, .manualParse "txt"] ∧
    generateObjectModel allFailGen (ZodNode.str (some "d") none) 0 0 =
      (tierEvents allFailGen 0 ++
        [.fallbackCall (createDistilledSchema (ZodNode.str (some "d") none))
          (failedOutputAt allFailGen 0)] ++ [],
        Except.error (.noObj "txt")) :=
  ⟨rfl, rfl,
   (generate_object_fallback_tier_order allFailGen (ZodNode.str (some "d") none) 0
     0).2.2.2.2.2.2 (GenErr.noObj "txt") (GenErr.other "fb") rfl rfl rfl
     (fun _ h => Except.noConfusion h)⟩

/-- Witness for C8: a freshness-flagged question blocks answer and reflect
in the first step's schema. -/
theorem freshness_step_one_forces_search_visit_coding_witness :
    jsTrim freshP.question = freshP.question ∧
    EvalType.freshness ∈ freshOracle.questionEvalTypes ∧ 0 < freshP.tokenBudget ∧
    (getResponse freshP [freshOracle] forcedBeast).log ≠ [] ∧
    ∀ e, (getResponse freshP [freshOracle] forcedBeast).log.head? = some e →
      e.schemaAnswer = false ∧ e.schemaReflect = false ∧ e.totalStep = 1 ∧
      (∀ k ∈ agentActionKeys e.schemaReflect e.schemaRead e.schemaAnswer e.schemaSearch
        e.schemaCoding, k = "search" ∨ k = "coding" ∨ k = "visit") :=
  ⟨by decide, by decide, by decide,
   (freshness_step_one_forces_search_visit_coding freshP freshOracle [] forcedBeast
     (by decide) (by decide) (by decide)).1,
   (freshness_step_one_forces_search_visit_coding freshP freshOracle [] forcedBeast
     (by decide) (by decide) (by decide)).2⟩

/-- Witness for C9: the fully-permitted schema instantiation. -/
theorem agent_schema_enum_and_sublimits_witness :
    ("answer" ∈ agentActionKeys true true true true true) ∧
    (agentActionKeys true true true true true).Nodup ∧
    (getAgentSchema true true true true true).searchSub =
      some { maxQueries := MAX_QUERIES_PER_STEP, queryMinLen := 1, queryMaxLen := 30,
             isOptional := true } :=
  ⟨((agent_schema_enum_and_sublimits true true true true true).2.2.1).mpr rfl,
   (agent_schema_enum_and_sublimits true true true true true).2.2.2.2.2.2.1,
   ((agent_schema_enum_and_sublimits true true true true true).2.2.2.2.2.2.2.1).trans
     (by decide)⟩

/-- Witness for C10: at the second step of the concrete reflect session,
three gaps are outstanding and the schema excludes reflect. -/
theorem reflect_gated_by_gap_count_witness :
    ((getResponse reflectP reflectOracles forcedBeast).log.getD 1 default ∈
      (getResponse reflectP reflectOracles forcedBeast).log) ∧
    ((getResponse reflectP reflectOracles forcedBeast).log.getD 1 default).kind =
      .regular ∧
    MAX_REFLECT_PER_STEP <
      ((getResponse reflectP reflectOracles forcedBeast).log.getD 1
        default).gapsLenAtSchema ∧
    ((getResponse reflectP reflectOracles forcedBeast).log.getD 1
      default).schemaReflect = false ∧
    "reflect" ∉ agentActionKeys
      ((getResponse reflectP reflectOracles forcedBeast).log.getD 1 default).schemaReflect
      ((getResponse reflectP reflectOracles forcedBeast).log.getD 1 default).schemaRead
      ((getResponse reflectP reflectOracles forcedBeast).log.getD 1 default).schemaAnswer
      ((getResponse reflectP reflectOracles forcedBeast).log.getD 1 default).schemaSearch
      ((getResponse reflectP reflectOracles forcedBeast).log.getD 1 default).schemaCoding :=
  ⟨by decide, by decide, by decide,
   (reflect_gated_by_gap_count reflectP reflectOracles forcedBeast
     ((getResponse reflectP reflectOracles forcedBeast).log.getD 1 default)
     (by decide) (by decide) (by decide)).1,
   (reflect_gated_by_gap_count reflectP reflectOracles forcedBeast
     ((getResponse reflectP reflectOracles forcedBeast).log.getD 1 default)
     (by decide) (by decide) (by decide)).2⟩

end JinaAgent
